import Mathlib

/-!
Verification development for the sales-analytics computational core
(StatsForecastService, ForecastAccuracyService, PythonForecastService,
PriceSalesAnalysisService, and the ARIMA wrapper service).

Numeric model: JavaScript numbers are embedded as `JsNum`, an exact-rational
model of the IEEE doubles actually reachable in this code base: a finite
value (`num q`), `nan`, and the two infinities.  All arithmetic the source
performs is exact on the inputs the claims quantify over, so `num` carries a
rational; `nan`/`inf` arise exactly where JavaScript produces them
(0/0, undefined array reads, x/0).  Where a source value is known to be an
ordinary number (raw observation fields), we use `ℚ` directly and inject
with `num` at the call sites that can go wrong.

Square roots: the source applies Math.sqrt only to build values that are
immediately (a) compared against a non-negative constant, or (b) returned as
the Pearson coefficient / RMSE.  For (a) we encode the comparison in squared
form (for m > 0, c ≥ 0: sqrt v / m > c ↔ v > c² · m², since both sides are
non-negative and sqrt is monotone); the definitions note this.  For (b) the
embedding keeps the radicand or uses `Real.sqrt`.
-/

/-- Model of a JavaScript number as reachable in this code base. -/
inductive JsNum where
  | nan : JsNum
  | inf : JsNum
  | ninf : JsNum
  | num : ℚ → JsNum
deriving DecidableEq, Repr

namespace JsNum

/-- JS unary minus. -/
def jneg : JsNum → JsNum
  | nan => nan
  | inf => ninf
  | ninf => inf
  | num a => num (-a)

/-- JS addition. -/
def jadd : JsNum → JsNum → JsNum
  | nan, _ => nan
  | _, nan => nan
  | inf, ninf => nan
  | ninf, inf => nan
  | inf, _ => inf
  | _, inf => inf
  | ninf, _ => ninf
  | _, ninf => ninf
  | num a, num b => num (a + b)

/-- JS subtraction, a - b = a + (-b). -/
def jsub (a b : JsNum) : JsNum := jadd a (jneg b)

/-- JS multiplication (Infinity · 0 = NaN). -/
def jmul : JsNum → JsNum → JsNum
  | nan, _ => nan
  | _, nan => nan
  | inf, inf => inf
  | inf, ninf => ninf
  | ninf, inf => ninf
  | ninf, ninf => inf
  | inf, num b => if 0 < b then inf else if b < 0 then ninf else nan
  | num a, inf => if 0 < a then inf else if a < 0 then ninf else nan
  | ninf, num b => if 0 < b then ninf else if b < 0 then inf else nan
  | num a, ninf => if 0 < a then ninf else if a < 0 then inf else nan
  | num a, num b => num (a * b)

/-- JS division (0/0 = NaN, x/0 = ±Infinity for x ≠ 0, x/±Infinity = 0). -/
def jdiv : JsNum → JsNum → JsNum
  | nan, _ => nan
  | _, nan => nan
  | inf, inf => nan
  | inf, ninf => nan
  | ninf, inf => nan
  | ninf, ninf => nan
  | inf, num b => if b < 0 then ninf else inf
  | ninf, num b => if b < 0 then inf else ninf
  | num _, inf => num 0
  | num _, ninf => num 0
  | num a, num b =>
      if b = 0 then (if a = 0 then nan else if 0 < a then inf else ninf)
      else num (a / b)

/-- JS Math.abs. -/
def jabs : JsNum → JsNum
  | nan => nan
  | inf => inf
  | ninf => inf
  | num a => num |a|

/-- JS Math.round: round half toward +∞, i.e. ⌊x + 1/2⌋ on finite values. -/
def jround : JsNum → JsNum
  | nan => nan
  | inf => inf
  | ninf => ninf
  | num a => num (⌊a + 1/2⌋ : ℤ)

/-- JS Math.max(0, x); note Math.max(0, NaN) = NaN. -/
def jmax0 : JsNum → JsNum
  | nan => nan
  | inf => inf
  | ninf => num 0
  | num a => num (max 0 a)

/-- JS comparison x > c against a plain number (false on NaN). -/
def jgtQ : JsNum → ℚ → Bool
  | nan, _ => false
  | inf, _ => true
  | ninf, _ => false
  | num a, c => decide (c < a)

/-- Sum of a list of JS numbers, as reduce((s, v) => s + v, 0). -/
def jsum (l : List JsNum) : JsNum := l.foldl jadd (num 0)

/-- Reading an array cell holding a plain number; out-of-range reads give
undefined, whose arithmetic behaves as NaN. -/
def jget (l : List ℚ) (i : ℕ) : JsNum :=
  match l.get? i with
  | some a => num a
  | none => nan

/-- JS comparison x <= c against a plain number (false on NaN). -/
def jleQ : JsNum → ℚ → Bool
  | nan, _ => false
  | inf, _ => false
  | ninf, _ => true
  | num a, c => decide (a ≤ c)

/-- A JS value that holds a non-negative integer. -/
def isNatNum (x : JsNum) : Prop := ∃ m : ℕ, x = num m

end JsNum


/-! ### Association-list maps

JavaScript objects used as month-keyed accumulators: string keys in
first-insertion order.  `updateAssoc m k f z` models
`if (!m[k]) m[k] = z; m[k] = f(m[k])` and `assocLookup` models `m[k]`.
-/

/-- Update the entry at key `k` in place, or append `(k, f z)` if missing. -/
def updateAssoc {β : Type} : List (ℕ × β) → ℕ → (β → β) → β → List (ℕ × β)
  | [], k, f, z => [(k, f z)]
  | (k0, b) :: rest, k, f, z =>
      if k0 = k then (k0, f b) :: rest else (k0, b) :: updateAssoc rest k f z

/-- Object property read. -/
def assocLookup {β : Type} : List (ℕ × β) → ℕ → Option β
  | [], _ => none
  | (k0, b) :: rest, k => if k0 = k then some b else assocLookup rest k

/-- The (index, value) pairs a JS reduce/forEach with index sees. -/
def withIdx {α : Type} (l : List α) : List (ℕ × α) := (List.range l.length).zip l

/-- A forEach loop accumulating a per-slot (sum, count) pair, as the
12-month seasonal accumulators do: each element adds its value to the slot
chosen by `sl`. -/
def slotFold {γ : Type} (sl : γ → ℕ) (v : γ → ℚ) (L : List γ) : ℕ → ℚ × ℕ :=
  L.foldl (fun acc x => fun m =>
    if m = sl x then ((acc m).1 + v x, (acc m).2 + 1) else acc m) (fun _ => (0, 0))

namespace Stats

open JsNum

/-- A raw sales observation as consumed by StatsForecastService: the calendar
month key (the yyyy-MM string abstracted to a discrete ordered key), the SKU,
and the quantity/revenue fields. -/
structure Obs where
  monthKey : ℕ
  sku : String
  soldQuantity : ℚ
  revenue : ℚ
deriving DecidableEq, Repr

/-- Per-month accumulator of groupByMonth (lines 71–89). -/
structure SBucket where
  soldQuantity : ℚ
  revenue : ℚ
  count : ℕ
deriving DecidableEq, Repr

def zeroBucket : SBucket := ⟨0, 0, 0⟩

def addToBucket (b : SBucket) (o : Obs) : SBucket :=
  ⟨b.soldQuantity + o.soldQuantity, b.revenue + o.revenue, b.count + 1⟩

/-- StatsForecastService.groupByMonth (lines 71–89): fold over the data in
order, accumulating per-month quantity and revenue sums and a count; keys
appear in first-occurrence order, as JS object keys do. -/
def groupByMonth (data : List Obs) : List (ℕ × SBucket) :=
  data.foldl (fun acc item =>
    updateAssoc acc item.monthKey (fun b => addToBucket b item) zeroBucket) []

/-- A point of the monthly time series (prepareTimeSeries output). -/
structure TSRow where
  monthKey : ℕ
  soldQuantity : ℚ
  revenue : ℚ
deriving DecidableEq, Repr

/-- Stable insertion of a row into a month-sorted list (new element goes after
elements with an equal key, matching JS stable sort with the a.date − b.date
comparator). -/
def insertRow (r : TSRow) : List TSRow → List TSRow
  | [] => [r]
  | x :: xs => if r.monthKey < x.monthKey then r :: x :: xs else x :: insertRow r xs

/-- StatsForecastService.prepareTimeSeries (lines 94–102): object entries to
rows, sorted ascending by month. -/
def prepareTimeSeries (monthlyData : List (ℕ × SBucket)) : List TSRow :=
  (monthlyData.map (fun p => TSRow.mk p.1 p.2.soldQuantity p.2.revenue)).foldl
    (fun acc r => insertRow r acc) []

/-- Sum of the regression x-values 0, …, n−1. -/
def sumIdx (n : ℕ) : ℚ := ((List.range n).map (fun (i : ℕ) => (i : ℚ))).sum

/-- Sum of the squared regression x-values. -/
def sumIdxSq (n : ℕ) : ℚ := ((List.range n).map (fun (i : ℕ) => (i : ℚ) * (i : ℚ))).sum

/-- Sum of x·y over the series values with their indices. -/
def sumIdxY (q : List ℚ) : ℚ := ((withIdx q).map (fun (p : ℕ × ℚ) => (p.1 : ℚ) * p.2)).sum

/-- StatsForecastService.linearRegression (lines 243–254).  On a series of
fewer than 2 points the denominator n·Σx² − (Σx)² is 0 and the JS slope is
NaN (0/0), which `jdiv` reproduces. -/
def linearRegression (q : List ℚ) : JsNum × JsNum :=
  let n : ℚ := q.length
  let sX := sumIdx q.length
  let sY := q.sum
  let sXY := sumIdxY q
  let sXX := sumIdxSq q.length
  let slope := jdiv (num (n * sXY - sX * sY)) (num (n * sXX - sX * sX))
  let intercept := jdiv (jsub (num sY) (jmul slope (num sX))) (num n)
  (slope, intercept)

/-- The 12 month slots accumulated by calculateSeasonalFactors and
calculateSeasonal (sum and count of the values at indices ≡ m mod 12). -/
def monthlyAgg (q : List ℚ) : ℕ → ℚ × ℕ :=
  slotFold (fun p => p.1 % 12) (fun p => p.2) (withIdx q)

/-- Mean of a month slot, 0 when the slot is empty (count guard in source). -/
def monthlyMean (q : List ℚ) (m : ℕ) : ℚ :=
  if 0 < (monthlyAgg q m).2 then (monthlyAgg q m).1 / ((monthlyAgg q m).2 : ℚ) else 0

/-- The monthlyMeans array of calculateSeasonalFactors (lines 259–283). -/
def monthlyMeansList (q : List ℚ) : List ℚ := (List.range 12).map (monthlyMean q)

/-- overallMean of calculateSeasonalFactors: sum of the 12 monthly means over
the number of positive ones; 0/0 = NaN when no month has a positive mean. -/
def overallMean (q : List ℚ) : JsNum :=
  jdiv (num (monthlyMeansList q).sum)
    (num ((monthlyMeansList q).filter (fun x => decide (0 < x))).length)

/-- The seasonalFactors object: an entry mean/overallMean exactly for months
with a positive mean. -/
def seasonalFactors (q : List ℚ) (m : ℕ) : Option JsNum :=
  if 0 < monthlyMean q m then some (jdiv (num (monthlyMean q m)) (overallMean q)) else none

/-- The read `seasonalFactors[month] || 1.0`.  Stored factors are never 0 or
NaN (a NaN overall mean occurs only when no factor is stored), so the JS
truthiness fallback coincides with presence. -/
def seasonalFactorOr1 (q : List ℚ) (m : ℕ) : JsNum := (seasonalFactors q m).getD (num 1)

/-- StatsForecastService.generateARIMAForecasts (lines 157–179). -/
def generateARIMAForecasts (q : List ℚ) (periods : ℕ) : List JsNum :=
  let n := q.length
  let lr := linearRegression q
  (List.range' 1 periods).map (fun (i : ℕ) =>
    let trendValue := jadd lr.2 (jmul lr.1 (num ((n : ℚ) + (i : ℚ) - 1)))
    let factor := seasonalFactorOr1 q ((n + i - 1) % 12)
    jmax0 (jround (jmul trendValue factor)))

/-- StatsForecastService.generateETSForecasts (lines 184–215).  On the empty
series the initial level quantities[0] is undefined and every forecast is
NaN; on a non-empty series the triple-smoothing loop performs no division,
so the state is an exact rational throughout. -/
def generateETSForecasts (q : List ℚ) (periods : ℕ) : List JsNum :=
  match q with
  | [] => (List.range' 1 periods).map (fun _ => nan)
  | q0 :: rest =>
      let seasonals0 := (List.range 12).map (fun i => (q0 :: rest).getD i 0)
      let step := fun (st : ℚ × ℚ × List ℚ) (p : ℕ × ℚ) =>
        let level := st.1
        let trend := st.2.1
        let seasonals := st.2.2
        let sOld := seasonals.getD (p.1 % 12) 0
        let newLevel := 3/10 * (p.2 - sOld) + (1 - 3/10) * (level + trend)
        let newTrend := 1/10 * (newLevel - level) + (1 - 1/10) * trend
        (newLevel, newTrend, seasonals.set (p.1 % 12) (1/10 * (p.2 - newLevel) + (1 - 1/10) * sOld))
      let fin := ((withIdx rest).map (fun p => (p.1 + 1, p.2))).foldl step (q0, 0, seasonals0)
      let n := rest.length + 1
      (List.range' 1 periods).map (fun (i : ℕ) =>
        jmax0 (jround (num (fin.1 + fin.2.1 * (i : ℚ) + fin.2.2.getD ((n + i - 1) % 12) 0))))

/-- StatsForecastService.calculateTrend (lines 288–303): centered moving
averages; every window is non-empty for indices below the length. -/
def calculateTrend (q : List ℚ) : List ℚ :=
  let n := q.length
  (List.range n).map (fun i =>
    let w := min 5 (n / 2)
    let start := i - w
    let stop := min n (i + w + 1)
    let windowData := (q.drop start).take (stop - start)
    windowData.sum / windowData.length)

/-- StatsForecastService.calculateSeasonal (lines 308–319): the same 12-slot
sum/count accumulation as the seasonal factors, with the count guard. -/
def calculateSeasonal (q : List ℚ) : List ℚ := (List.range 12).map (monthlyMean q)

/-- StatsForecastService.generateThetaForecasts (lines 220–238).  trend[1] is
undefined (NaN arithmetic) on a series of fewer than 2 points. -/
def generateThetaForecasts (q : List ℚ) (periods : ℕ) : List JsNum :=
  let n := q.length
  let trend := calculateTrend q
  let seasonal := calculateSeasonal q
  (List.range' 1 periods).map (fun (i : ℕ) =>
    let trendComponent := jadd (jget trend (n - 1)) (jmul (jsub (jget trend 1) (jget trend 0)) (num (i : ℚ)))
    let seasonalComponent := seasonal.getD ((n + i - 1) % 12) 0
    jmax0 (jround (jadd trendComponent (num seasonalComponent))))

/-- Arithmetic mean reduce(...)/length; 0/0 on the empty list is NaN in JS,
which only reaches call sites that then take a false comparison branch,
matching this total definition (see the volatility comments). -/
def mean (q : List ℚ) : ℚ := q.sum / q.length

/-- Population variance as in calculateVolatility (lines 351–357). -/
def variance (q : List ℚ) : ℚ := ((q.map (fun x => (x - mean q) ^ 2)).sum) / q.length

/-- The comparison calculateVolatility(q) > c for a constant c > 0.  The
source value is sqrt(variance)/mean when mean > 0 and 0 otherwise (also 0 on
the empty list, where the JS mean is NaN and the mean > 0 test is false).
For mean > 0 both sides of sqrt(variance)/mean > c are non-negative, so the
comparison is equivalent to variance > c²·mean². -/
def volatilityGt (q : List ℚ) (c : ℚ) : Bool :=
  decide (0 < mean q) && decide (c ^ 2 * mean q ^ 2 < variance q)

/-- The comparison calculateVolatility(q) < c, same encoding. -/
def volatilityLt (q : List ℚ) (c : ℚ) : Bool :=
  if 0 < mean q then decide (variance q < c ^ 2 * mean q ^ 2) else decide (0 < c)

/-- StatsForecastService.calculateTrendStrength (lines 362–370): |slope|/mean
when mean > 0 (NaN when the slope is NaN), else 0. -/
def calculateTrendStrength (q : List ℚ) : JsNum :=
  if 0 < mean q then jdiv (jabs (linearRegression q).1) (num (mean q)) else num 0

/-- Object.values of the seasonal-factors object, in ascending month order. -/
def factorsList (q : List ℚ) : List JsNum :=
  (List.range 12).filterMap (fun m => seasonalFactors q m)

/-- The stored factors when all are finite. -/
def factorsQ (q : List ℚ) : Option (List ℚ) :=
  if (factorsList q).all (fun x => match x with | num _ => true | _ => false) then
    some ((factorsList q).filterMap (fun x => match x with | num a => some a | _ => none))
  else none

/-- The comparison calculateSeasonalityStrength(q) > c (lines 375–385) for a
constant c > 0: 0 (hence false) with no factors; sqrt(variance)/mean of the
factors otherwise, encoded in squared form when the factor mean is positive.
A non-positive factor mean gives a non-positive ratio, hence false; and a
non-finite factor can only be +Infinity (every factor is then +Infinity),
making the factor variance NaN and the JS comparison false. -/
def seasonalityStrengthGt (q : List ℚ) (c : ℚ) : Bool :=
  match factorsQ q with
  | none => false
  | some fs =>
      if fs.length = 0 then false
      else decide (0 < mean fs) && decide (c ^ 2 * mean fs ^ 2 < variance fs)

/-- The weight triple of calculateModelWeights (lines 324–346). -/
structure MWeights where
  arima : ℚ
  ets : ℚ
  theta : ℚ
deriving DecidableEq, Repr

/-- StatsForecastService.calculateModelWeights (lines 324–346); the
forecastIndex parameter is unused in the source.  Rules in source order:
volatility > 0.5, then trend strength > 0.3, then seasonality > 0.4, else
the base weights. -/
def calculateModelWeights (q : List ℚ) : MWeights :=
  if volatilityGt q (1/2) then ⟨1/5, 1/2, 3/10⟩
  else if jgtQ (calculateTrendStrength q) (3/10) then ⟨1/2, 3/10, 1/5⟩
  else if seasonalityStrengthGt q (2/5) then ⟨3/10, 2/5, 3/10⟩
  else ⟨2/5, 3/10, 3/10⟩

/-- StatsForecastService.generateSingleForecast (lines 406–425). -/
def generateSingleForecast (q : List ℚ) (periods : ℕ) : List JsNum :=
  let a := generateARIMAForecasts q periods
  let e := generateETSForecasts q periods
  let t := generateThetaForecasts q periods
  let w := calculateModelWeights q
  (List.range periods).map (fun i =>
    let s := jadd (jadd (jmul (a.getD i nan) (num w.arima)) (jmul (e.getD i nan) (num w.ets)))
      (jmul (t.getD i nan) (num w.theta))
    jmax0 (jround (jdiv s (num (w.arima + w.ets + w.theta)))))

/-- StatsForecastService.generateValidationForecasts (lines 390–401).  At the
single call site validationPeriods = trainingData.length − 1, so the slice
bound length − validationPeriods + i − 1 = i is never negative. -/
def generateValidationForecasts (trainingData : List TSRow) (validationPeriods : ℕ) : List JsNum :=
  let quantities := trainingData.map (fun r => r.soldQuantity)
  (List.range' 1 validationPeriods).map (fun i =>
    let availableData := quantities.take (quantities.length - validationPeriods + i - 1)
    (generateSingleForecast availableData 1).getD 0 nan)

/-- A combined future forecast point (runMultipleModels, lines 107–152);
soldQuantity is clamped at 0, revenue is the unclamped rounded quantity times
the average price Σ(revenueᵢ/quantityᵢ)/n.  The calendar labels attached in
the source are presentation only and are omitted. -/
structure FuturePoint where
  soldQuantity : JsNum
  revenue : JsNum
deriving DecidableEq, Repr

/-- StatsForecastService.runMultipleModels (lines 107–152). -/
def runMultipleModels (trainingData : List TSRow) (forecastPeriods : ℕ) :
    List FuturePoint × List JsNum :=
  let quantities := trainingData.map (fun r => r.soldQuantity)
  let revenues := trainingData.map (fun r => r.revenue)
  let a := generateARIMAForecasts quantities forecastPeriods
  let e := generateETSForecasts quantities forecastPeriods
  let t := generateThetaForecasts quantities forecastPeriods
  let combined := (List.range forecastPeriods).map (fun i =>
    let w := calculateModelWeights quantities
    let cq := jround (jdiv
      (jadd (jadd (jmul (a.getD i nan) (num w.arima)) (jmul (e.getD i nan) (num w.ets)))
        (jmul (t.getD i nan) (num w.theta)))
      (num (w.arima + w.ets + w.theta)))
    let avgPrice := jdiv (jsum ((revenues.zip quantities).map (fun p => jdiv (num p.1) (num p.2))))
      (num quantities.length)
    FuturePoint.mk (jmax0 cq) (jmul cq avgPrice))
  (combined, generateValidationForecasts trainingData (trainingData.length - 1))

/-- The metrics record of StatsForecastService.calculateAccuracy
(lines 430–468).  The source's rmse is the square root of the `mse` field
kept here; no claim compares the rmse itself. -/
structure AccMetrics where
  mae : JsNum
  mape : JsNum
  mse : JsNum
  accuracy : String
  confidence : ℚ
deriving Repr

/-- StatsForecastService.calculateAccuracy (lines 430–468).  Note the MAPE:
the source filters the actuals and then reduces with the index of the
filtered array, so each retained actual is paired with the forecast at the
compacted index, not at its original position. -/
def calculateAccuracy (actualData : List TSRow) (forecastData : List JsNum) : AccMetrics :=
  if actualData.length ≠ forecastData.length ∨ actualData.length = 0 then
    ⟨num 0, num 0, num 0, "Poor", 0⟩
  else
    let actual := actualData.map (fun r => r.soldQuantity)
    let mae := jdiv (jsum ((withIdx actual).map (fun p =>
      jabs (jsub (num p.2) (forecastData.getD p.1 nan))))) (num actual.length)
    let pos := actual.filter (fun a => decide (0 < a))
    let mape := jmul (jdiv (jsum ((withIdx pos).map (fun p =>
      jabs (jdiv (jsub (num p.2) (forecastData.getD p.1 nan)) (num p.2)))))
      (num pos.length)) (num 100)
    let mse := jdiv (jsum ((withIdx actual).map (fun p =>
      jmul (jsub (num p.2) (forecastData.getD p.1 nan)) (jsub (num p.2) (forecastData.getD p.1 nan)))))
      (num actual.length)
    let cat := if jleQ mape 10 then "Good" else if jleQ mape 25 then "Medium" else "Poor"
    let factor : ℚ := if jleQ mape 10 then 1 else if jleQ mape 25 then 8/10 else 6/10
    ⟨mae, mape, mse, cat, min ((actual.length : ℚ) / 6) 1 * factor⟩

/-- The result record of generateForecasts; on failure `error` explains and
`accuracy` is null, on success `error` is empty. -/
structure StatsResult where
  success : Bool
  error : String
  future : List FuturePoint
  accuracy : Option AccMetrics
  trainingMonths : ℕ
  validationMonths : ℕ
  totalMonths : ℕ
deriving Repr

/-- StatsForecastService.generateForecasts (lines 11–66).  Math.floor(n·0.7)
is modeled as 7n/10: at every series length reachable in the claims the two
agree (the float product never crosses an integer there). -/
def generateForecasts (historicalData : List Obs) (sku : Option String) (forecastPeriods : ℕ) :
    StatsResult :=
  let filteredData := match sku with
    | some s => historicalData.filter (fun o => o.sku = s)
    | none => historicalData
  if filteredData.length < 8 then
    ⟨false, "Insufficient data for forecasting (need at least 8 months)", [], none, 0, 0, 0⟩
  else
    let timeSeries := prepareTimeSeries (groupByMonth filteredData)
    let splitIndex := timeSeries.length * 7 / 10
    let trainingData := timeSeries.take splitIndex
    let validationData := timeSeries.drop splitIndex
    if trainingData.length < 4 ∨ validationData.length < 2 then
      ⟨false, "Insufficient data split for validation", [], none, 0, 0, 0⟩
    else
      let fc := runMultipleModels trainingData forecastPeriods
      ⟨true, "", fc.1, some (calculateAccuracy validationData fc.2),
        trainingData.length, validationData.length, timeSeries.length⟩

end Stats


/-- Stable insertion into a sorted list under a strict Bool comparison: the
inserted (later) element goes after existing equal elements, matching JS
stable Array.prototype.sort with a numeric comparator. -/
def insertBy {α : Type} (lt : α → α → Bool) (r : α) : List α → List α
  | [] => [r]
  | x :: xs => if lt r x then r :: x :: xs else x :: insertBy lt r xs

/-- Stable sort by repeated insertion, in input order. -/
def stableSortBy {α : Type} (lt : α → α → Bool) (l : List α) : List α :=
  l.foldl (fun acc r => insertBy lt r acc) []

namespace FAcc

open JsNum

/-- A monthly bucket as consumed by the local forecasting helpers of
ForecastAccuracyService: the calendar month of its date (date.getMonth()),
the sold quantity, and the average price. -/
structure FRow where
  monthIdx : Fin 12
  soldQuantity : ℚ
  avgPrice : ℚ
deriving DecidableEq, Repr

/-- The 12 calendar-month slots of calculateSeasonalFactors (lines 238–265):
sum and count of quantities by date month. -/
def monthlyAggD (td : List FRow) : ℕ → ℚ × ℕ :=
  slotFold (fun item => (item.monthIdx : ℕ)) (fun item => item.soldQuantity) td

/-- Mean of a calendar-month slot, 0 when empty (count guard in source). -/
def monthlyMeanD (td : List FRow) (m : ℕ) : ℚ :=
  if 0 < (monthlyAggD td m).2 then (monthlyAggD td m).1 / ((monthlyAggD td m).2 : ℚ) else 0

/-- The monthlyMeans array (lines 247–250). -/
def monthlyMeansListD (td : List FRow) : List ℚ := (List.range 12).map (monthlyMeanD td)

/-- overallMean of calculateSeasonalFactors: sum of the monthly means over the
count of positive ones; NaN (0/0) when no month has a positive mean. -/
def overallMeanD (td : List FRow) : JsNum :=
  jdiv (num (monthlyMeansListD td).sum)
    (num ((monthlyMeansListD td).filter (fun x => decide (0 < x))).length)

/-- The seasonalFactors object keyed by calendar month (lines 256–262). -/
def seasonalFactorsD (td : List FRow) (m : ℕ) : Option JsNum :=
  if 0 < monthlyMeanD td m then some (jdiv (num (monthlyMeanD td m)) (overallMeanD td)) else none

/-- The calendar month of the last training bucket; the source reads
trainingData[length − 1].date, which throws on an empty list — no claim
evaluates this on an empty list, and this total model returns month 0 there. -/
def lastMonthIdx (td : List FRow) : ℕ :=
  match td.reverse with
  | [] => 0
  | x :: _ => (x.monthIdx : ℕ)

/-- ForecastAccuracyService.generateLinearTrendForecasts (lines 146–175); the
inline least-squares is character-identical to StatsForecastService's
linearRegression, so that embedding is reused. -/
def generateLinearTrendForecasts (td : List FRow) (periods : ℕ) : List JsNum :=
  let q := td.map (fun r => r.soldQuantity)
  let n := q.length
  let lr := Stats.linearRegression q
  (List.range' 1 periods).map (fun (i : ℕ) =>
    let trendValue := jadd lr.2 (jmul lr.1 (num ((n : ℚ) + (i : ℚ) - 1)))
    let month := (lastMonthIdx td + i) % 12
    let factor := (seasonalFactorsD td month).getD (num 1)
    jmax0 (jround (jmul trendValue factor)))

/-- ForecastAccuracyService.generateMovingAverageForecasts (lines 180–203).
The loop runs i = windowSize − 1, …, length − 1, i.e. length − windowSize + 1
iterations with window slice(i − windowSize + 1, i + 1); when the window size
min(6, ⌊n/2⌋) is 0 (n ≤ 1) every window is empty and its average is NaN
(0/0), so the trend, last moving average and all forecasts are NaN. -/
def generateMovingAverageForecasts (td : List FRow) (periods : ℕ) : List JsNum :=
  let q := td.map (fun r => r.soldQuantity)
  let windowSize := min 6 (q.length / 2)
  let movingAverages := (List.range (q.length + 1 - windowSize)).map (fun j =>
    let window := (q.drop j).take windowSize
    jdiv (num window.sum) (num window.length))
  let trend := if 1 < movingAverages.length then
      jdiv (jsub (movingAverages.getD (movingAverages.length - 1) nan) (movingAverages.getD 0 nan))
        (num ((movingAverages.length : ℚ) - 1))
    else num 0
  let lastMA := movingAverages.getD (movingAverages.length - 1) nan
  (List.range' 1 periods).map (fun (i : ℕ) =>
    jmax0 (jround (jadd lastMA (jmul trend (num (i : ℚ))))))

/-- ForecastAccuracyService.generateExponentialSmoothingForecasts
(lines 208–233).  The source records every smoothed value but uses only the
first (quantities[0]), the last, and the count; the fold computes the last.
On the empty series the initial smoothed value is undefined and all
forecasts are NaN. -/
def generateExponentialSmoothingForecasts (td : List FRow) (periods : ℕ) : List JsNum :=
  match td.map (fun r => r.soldQuantity) with
  | [] => (List.range' 1 periods).map (fun _ => nan)
  | q0 :: rest =>
      let lastSmoothed := rest.foldl (fun s x => 3/10 * x + (1 - 3/10) * s) q0
      let trend := if 0 < rest.length then (lastSmoothed - q0) / (rest.length : ℚ) else 0
      (List.range' 1 periods).map (fun (i : ℕ) =>
        jmax0 (jround (num (lastSmoothed + trend * (i : ℚ)))))

/-- The weight triple of calculateForecastWeights (lines 270–299). -/
structure FWeights where
  linear : ℚ
  movingAvg : ℚ
  expSmoothing : ℚ
deriving DecidableEq, Repr

/-- ForecastAccuracyService.calculateForecastWeights (lines 270–299): a
volatility-only table (thresholds 0.5 and 0.2); the forecastIndex parameter
is unused in the source.  calculateVolatility (lines 304–310) is
character-identical to the StatsForecastService one, so the same squared
comparison encodings are reused. -/
def calculateForecastWeights (td : List FRow) : FWeights :=
  let q := td.map (fun r => r.soldQuantity)
  if Stats.volatilityGt q (1/2) then ⟨1/5, 2/5, 2/5⟩
  else if Stats.volatilityLt q (1/5) then ⟨3/5, 1/5, 1/5⟩
  else ⟨2/5, 3/10, 3/10⟩

/-- A combined robust forecast point (generateRobustForecasts, lines 104–141);
soldQuantity is the clamped rounded combination, revenue the unclamped
rounded combination times the mean of the training average prices.  Calendar
labels are presentation only and omitted. -/
structure RobustPoint where
  soldQuantity : JsNum
  revenue : JsNum
deriving DecidableEq, Repr

/-- ForecastAccuracyService.generateRobustForecasts (lines 104–141): empty
result below 4 training buckets, else the weighted combination of the three
local models. -/
def generateRobustForecasts (td : List FRow) (forecastPeriods : ℕ) : List RobustPoint :=
  if td.length < 4 then []
  else
    let lf := generateLinearTrendForecasts td forecastPeriods
    let mf := generateMovingAverageForecasts td forecastPeriods
    let ef := generateExponentialSmoothingForecasts td forecastPeriods
    (List.range forecastPeriods).map (fun i =>
      let w := calculateForecastWeights td
      let cq := jround (jdiv
        (jadd (jadd (jmul (lf.getD i nan) (num w.linear)) (jmul (mf.getD i nan) (num w.movingAvg)))
          (jmul (ef.getD i nan) (num w.expSmoothing)))
        (num (w.linear + w.movingAvg + w.expSmoothing)))
      let avgPrice := (td.map (fun r => r.avgPrice)).sum / td.length
      RobustPoint.mk (jmax0 cq) (jmul cq (num avgPrice)))

/-- A raw sales row as posted to the Python backend and consumed by
calculateForecastAccuracy: an orderable date key, the SKU and the sales
quantity (parseFloat(x.sales) || 0 is the identity on a plain number). -/
structure SalesRow where
  date : ℕ
  sku : String
  sales : ℚ
deriving DecidableEq, Repr

/-- A forecast row of the backend response. -/
structure PyRow where
  sales : ℚ
deriving DecidableEq, Repr

/-- The parsed JSON body of a backend forecast response. -/
structure PyResult where
  success : Bool
  error : String
  forecast : Option (List PyRow)
deriving DecidableEq, Repr

/-- The remote backend as an oracle: the response to a POST of
(salesData, periods, productId), or `Except.error` when the fetch or JSON
parse rejects (network failure / timeout). -/
def PyOracle : Type := List SalesRow → ℕ → Option String → Except String PyResult

/-- PythonForecastService.generateForecast (lines 27–52): a rejected fetch is
caught, logged and re-thrown; a well-formed response with success = false is
turned into a thrown error.  generateEnsembleForecast (lines 123–127)
delegates to this. -/
def pyGenerateForecast (oracle : PyOracle) (salesData : List SalesRow) (periods : ℕ)
    (productId : Option String) : Except String PyResult :=
  match oracle salesData periods productId with
  | Except.error e => Except.error e
  | Except.ok result => if result.success then Except.ok result else Except.error result.error

/-- The recommendation strings of ForecastAccuracyService, abstracted to
their template: which message, plus (for an assessed product) the category
string and the MAPE value rounded as toFixed(1). -/
inductive Recommendation where
  | insufficientHistorical : Recommendation
  | forecastFailed : Recommendation
  | insufficientValidation : Recommendation
  | validationForecastFailed : Recommendation
  | assessed : String → ℚ → Option String → Recommendation
deriving DecidableEq, Repr

/-- The accuracy report of calculateForecastAccuracy.  The source's rmse is
the square root of the `mse` field kept here; the early returns omit the
count fields, modeled as 0. -/
structure Report where
  mae : ℚ
  mape : ℚ
  mse : ℚ
  accuracy : String
  confidence : ℚ
  recommendation : Recommendation
  dataPoints : ℕ
  trainingMonths : ℕ
  validationMonths : ℕ
  totalMonths : ℕ
deriving DecidableEq, Repr

/-- A comparison row (actual vs validation forecast at the same index). -/
structure CompRow where
  actual : ℚ
  forecast : ℚ
  date : ℕ
deriving DecidableEq, Repr

/-- ForecastAccuracyService.calculateMAE (lines 315–318). -/
def calculateMAE (cd : List CompRow) : ℚ :=
  ((cd.map (fun r => |r.actual - r.forecast|)).sum) / cd.length

/-- ForecastAccuracyService.calculateMAPE (lines 323–330): filters whole
comparison rows with actual > 0, so each retained actual keeps the forecast
of its own row. -/
def calculateMAPE (cd : List CompRow) : ℚ :=
  let pe := (cd.filter (fun r => decide (0 < r.actual))).map
    (fun r => |(r.actual - r.forecast) / r.actual| * 100)
  if 0 < pe.length then pe.sum / pe.length else 0

/-- The mean squared error of calculateRMSE (lines 335–339); rmse = sqrt of
this. -/
def calculateMSE (cd : List CompRow) : ℚ :=
  ((cd.map (fun r => (r.actual - r.forecast) ^ 2)).sum) / cd.length

/-- ForecastAccuracyService.categorizeAccuracy (lines 344–348). -/
def categorizeAccuracy (mape : ℚ) : String :=
  if mape ≤ 10 then "Good" else if mape ≤ 25 then "Medium" else "Poor"

/-- ForecastAccuracyService.calculateConfidence (lines 353–364). -/
def calculateConfidence (dataPoints : ℕ) (mape : ℚ) (trainingMonths : ℕ) : ℚ :=
  if dataPoints < 2 then 0
  else
    (min ((dataPoints : ℚ) / 6) 1 * (4/10) + min ((trainingMonths : ℚ) / 12) 1 * (6/10)) *
      (if mape ≤ 10 then 1 else if mape ≤ 25 then 8/10 else 6/10)

/-- Number.prototype.toFixed(1) on a non-negative value. -/
def toFixed1 (x : ℚ) : ℚ := ((⌊x * 10 + 1/2⌋ : ℤ) : ℚ) / 10

/-- ForecastAccuracyService.generateRecommendation (lines 369–382). -/
def generateRecommendation (accuracy : String) (mape : ℚ) (sku : Option String) : Recommendation :=
  Recommendation.assessed accuracy (toFixed1 mape) sku

/-- ForecastAccuracyService.calculateForecastAccuracy (lines 12–96).  Both
backend calls go through pyGenerateForecast with no surrounding catch, so a
rejected call propagates out of this function; the success checks after each
await are reachable only for a fulfilled response without a forecast array.
Math.floor(n·0.7) is modeled as 7n/10 as in generateForecasts. -/
def calculateForecastAccuracy (oracle : PyOracle) (historicalData : List SalesRow)
    (sku : Option String) : Except String Report :=
  if historicalData.length = 0 then
    Except.ok ⟨0, 0, 0, "Poor", 0, Recommendation.insufficientHistorical, 0, 0, 0, 0⟩
  else
    match pyGenerateForecast oracle historicalData 12 sku with
    | Except.error e => Except.error e
    | Except.ok forecastResult =>
      match forecastResult.forecast with
      | none => Except.ok ⟨0, 0, 0, "Poor", 0, Recommendation.forecastFailed, 0, 0, 0, 0⟩
      | some _ =>
        let splitIndex := historicalData.length * 7 / 10
        let trainingData := historicalData.take splitIndex
        let validationData := historicalData.drop splitIndex
        if validationData.length < 2 then
          Except.ok ⟨0, 0, 0, "Poor", 0, Recommendation.insufficientValidation, 0, 0, 0, 0⟩
        else
          match pyGenerateForecast oracle trainingData validationData.length sku with
          | Except.error e => Except.error e
          | Except.ok validationForecast =>
            match validationForecast.forecast with
            | none => Except.ok ⟨0, 0, 0, "Poor", 0, Recommendation.validationForecastFailed, 0, 0, 0, 0⟩
            | some vf =>
              let comparisonData := (withIdx validationData).map (fun p =>
                CompRow.mk p.2.sales (((vf.get? p.1).map (fun r => r.sales)).getD 0) p.2.date)
              let mae := calculateMAE comparisonData
              let mape := calculateMAPE comparisonData
              let mse := calculateMSE comparisonData
              let accuracy := categorizeAccuracy mape
              Except.ok ⟨mae, mape, mse, accuracy,
                calculateConfidence comparisonData.length mape trainingData.length,
                generateRecommendation accuracy mape sku,
                comparisonData.length, trainingData.length, validationData.length,
                historicalData.length⟩

end FAcc

namespace PriceSvc

open JsNum

/-- A raw observation as consumed by PriceSalesAnalysisService: month key,
SKU, quantity, revenue, unit cost and unit price. -/
structure PObs where
  monthKey : ℕ
  sku : String
  soldQuantity : ℚ
  revenue : ℚ
  cost : ℚ
  price : ℚ
deriving DecidableEq, Repr

/-- The per-month accumulator of correlatePriceWithSales (lines 33–51). -/
structure PBucket where
  soldQuantity : ℚ
  revenue : ℚ
  totalCost : ℚ
  pricePoints : List ℚ
  count : ℕ
deriving DecidableEq, Repr

def zeroPBucket : PBucket := ⟨0, 0, 0, [], 0⟩

def addToPBucket (b : PBucket) (o : PObs) : PBucket :=
  ⟨b.soldQuantity + o.soldQuantity, b.revenue + o.revenue,
    b.totalCost + o.soldQuantity * o.cost, b.pricePoints ++ [o.price], b.count + 1⟩

/-- The monthlyData object of correlatePriceWithSales (lines 33–51). -/
def priceGroup (data : List PObs) : List (ℕ × PBucket) :=
  data.foldl (fun acc item =>
    updateAssoc acc item.monthKey (fun b => addToPBucket b item) zeroPBucket) []

/-- A correlation data point (lines 53–83). -/
structure DataPoint where
  monthKey : ℕ
  soldQuantity : ℚ
  revenue : ℚ
  avgPrice : ℚ
  profitMargin : ℚ
  priceChange : ℚ
  salesChange : ℚ
deriving DecidableEq, Repr

/-- Average price and profit margin of a month (lines 54–58), change fields
initialized to 0. -/
def bucketToPoint (k : ℕ) (b : PBucket) : DataPoint :=
  ⟨k, b.soldQuantity, b.revenue, b.pricePoints.sum / b.pricePoints.length,
    if 0 < b.revenue then (b.revenue - b.totalCost) / b.revenue else 0, 0, 0⟩

/-- The sorted data points built from the (already SKU-filtered) sales data
(lines 60–72). -/
def buildDataPoints (filteredSales : List PObs) : List DataPoint :=
  stableSortBy (fun a b => a.monthKey < b.monthKey)
    ((priceGroup filteredSales).map (fun p => bucketToPoint p.1 p.2))

/-- The month-over-month loop body (lines 75–83) applied along the list; each
point after the first gets its price and sales change relative to the
previous point (whose written fields are not read back). -/
def addChangesGo (prev : DataPoint) : List DataPoint → List DataPoint
  | [] => []
  | x :: xs =>
      let x1 := { x with
        priceChange := if 0 < prev.avgPrice then (x.avgPrice - prev.avgPrice) / prev.avgPrice else 0,
        salesChange := if 0 < prev.soldQuantity then (x.soldQuantity - prev.soldQuantity) / prev.soldQuantity else 0 }
      x1 :: addChangesGo x1 xs

def addChanges : List DataPoint → List DataPoint
  | [] => []
  | p0 :: rest => p0 :: addChangesGo p0 rest

/-- PriceSalesAnalysisService.calculatePearsonCorrelation (lines 115–133);
the denominator is a real square root, compared against 0 before dividing. -/
noncomputable def calculatePearsonCorrelation (dataPoints : List DataPoint) : ℝ :=
  if dataPoints.length < 2 then 0
  else
    let n : ℚ := dataPoints.length
    let x := dataPoints.map (fun d => d.priceChange)
    let y := dataPoints.map (fun d => d.salesChange)
    let sumX := x.sum
    let sumY := y.sum
    let sumXY := ((x.zip y).map (fun p => p.1 * p.2)).sum
    let sumX2 := (x.map (fun v => v * v)).sum
    let sumY2 := (y.map (fun v => v * v)).sum
    let numerator : ℝ := ((n * sumXY - sumX * sumY : ℚ) : ℝ)
    let denominator : ℝ :=
      Real.sqrt (((n * sumX2 - sumX * sumX) * (n * sumY2 - sumY * sumY) : ℚ) : ℝ)
    if denominator = 0 then 0 else numerator / denominator

/-- PriceSalesAnalysisService.calculatePriceElasticity (lines 140–150). -/
def calculatePriceElasticity (dataPoints : List DataPoint) : ℚ :=
  if dataPoints.length < 2 then 0
  else
    let el := (dataPoints.filter (fun d => decide (d.priceChange ≠ 0))).map
      (fun d => d.salesChange / d.priceChange)
    if 0 < el.length then el.sum / el.length else 0

/-- PriceSalesAnalysisService.calculateConfidence (lines 158–166). -/
noncomputable def calculateConfidenceP (sampleSize : ℕ) (correlation : ℝ) : ℝ :=
  if sampleSize < 3 then 0
  else ((min ((sampleSize : ℚ) / 12) 1 : ℚ) : ℝ) * (1/2 + |correlation| * (1/2))

/-- The correlation result (lines 101–107); the analysis narrative string is
presentation only and omitted, and the insufficiency returns carry a 0
elasticity for the source's absent field. -/
structure CorrelationResult where
  correlation : ℝ
  confidence : ℝ
  dataPoints : List DataPoint
  priceElasticity : ℚ

/-- PriceSalesAnalysisService.correlatePriceWithSales (lines 10–108). -/
noncomputable def correlatePriceWithSales (salesData : List PObs) (sku : Option String) :
    CorrelationResult :=
  if salesData.length = 0 then ⟨0, 0, [], 0⟩
  else
    let filteredSales := match sku with
      | some s => salesData.filter (fun o => o.sku = s)
      | none => salesData
    if filteredSales.length = 0 then ⟨0, 0, [], 0⟩
    else
      let dataPoints := addChanges (buildDataPoints filteredSales)
      let correlationData := dataPoints.drop 1
      if correlationData.length < 2 then ⟨0, 0, correlationData, 0⟩
      else
        let correlation := calculatePearsonCorrelation correlationData
        ⟨correlation, calculateConfidenceP correlationData.length correlation,
          correlationData, calculatePriceElasticity correlationData⟩

end PriceSvc

namespace ArimaSvc

/-- A sales row as consumed by the ARIMA wrapper service: an orderable date
key and the sales value (parseFloat(item.sales) || 0 is the identity on a
plain number). -/
structure ARow where
  date : ℕ
  sales : ℚ
deriving DecidableEq, Repr

/-- The in-place sort by date of prepareTimeSeriesData. -/
def sortByDate (l : List ARow) : List ARow := stableSortBy (fun a b => a.date < b.date) l

/-- Output of prepareTimeSeriesData, together with the contents of the
caller's array after the call. -/
structure PrepOut where
  values : List ℚ
  dates : List ℕ
  sortedData : List ARow
  inputAfter : List ARow
deriving DecidableEq, Repr

/-- ARIMAForecastService.prepareTimeSeriesData (lines 13–22):
salesData.sort(...) sorts the caller's array in place and returns it, so
sortedData aliases the argument and `inputAfter` — the contents of the
caller's array after the call — is the sorted list. -/
def prepareTimeSeriesData (salesData : List ARow) : PrepOut :=
  let sortedData := sortByDate salesData
  ⟨sortedData.map (fun r => r.sales), sortedData.map (fun r => r.date), sortedData, sortedData⟩

/-- Result of the cached ARIMA forecast: the clamped forecast values, the
cache contents after the call, and the caller's array after the call.  The
per-point confidence bounds (± 1.96·stdev, clamped) are derived presentation
fields and omitted. -/
structure ForecastOut (Model : Type) where
  forecastSales : List ℚ
  cacheAfter : List (String × Model)
  inputAfter : List ARow

/-- this.models.get(productId). -/
def cacheGet {Model : Type} (cache : List (String × Model)) (pid : Option String) : Option Model :=
  match pid with
  | none => none
  | some s => (cache.find? (fun p => p.1 = s)).map (fun p => p.2)

/-- this.models.set(productId, model) (no-op when productId is null). -/
def cacheSet {Model : Type} (cache : List (String × Model)) (pid : Option String) (m : Model) :
    List (String × Model) :=
  match pid with
  | none => cache
  | some s =>
      if cache.any (fun p => p.1 = s) then
        cache.map (fun p => if p.1 = s then (s, m) else p)
      else cache ++ [(s, m)]

/-- ARIMAForecastService.generateForecast (lines 31–97), parameterized by the
external ARIMA library: `train` builds a model from the sorted values and
`predict` produces one value per requested period.  A cached model for the
product is used as is — it is not retrained on the current values; on a cache
miss the freshly trained model is stored.  Fewer than 3 values throw. -/
def generateForecast {Model : Type} (train : List ℚ → Model) (predict : Model → ℕ → List ℚ)
    (cache : List (String × Model)) (salesData : List ARow) (periods : ℕ)
    (productId : Option String) : Except String (ForecastOut Model) :=
  let prep := prepareTimeSeriesData salesData
  if prep.values.length < 3 then
    Except.error "Insufficient data for forecasting (minimum 3 data points required)"
  else
    match cacheGet cache productId with
    | some model =>
        Except.ok ⟨(List.range periods).map (fun i => max 0 ((predict model periods).getD i 0)),
          cache, prep.inputAfter⟩
    | none =>
        let model := train prep.values
        Except.ok ⟨(List.range periods).map (fun i => max 0 ((predict model periods).getD i 0)),
          cacheSet cache productId model, prep.inputAfter⟩

end ArimaSvc

/-- Modelled from the spec (§4.3): the canonical priority-ordered weight rule
table — volatility > 0.5 favors ETS, else trend strength > 0.3 favors the
trend model, else seasonality strength > 0.4 favors ETS moderately, else the
balanced default — stated over the outcomes of the three diagnostic tests. -/
def canonicalWeights (volHigh trendHigh seasHigh : Bool) : Stats.MWeights :=
  if volHigh then ⟨1/5, 1/2, 3/10⟩
  else if trendHigh then ⟨1/2, 3/10, 1/5⟩
  else if seasHigh then ⟨3/10, 2/5, 3/10⟩
  else ⟨2/5, 3/10, 3/10⟩

/-- The (trend, moving-average-like, exponential-smoothing) reading of a
StatsForecastService weight triple: arima is the trend-plus-seasonal
regression model, theta the decomposition/moving-average model, ets the
exponential smoothing model. -/
def statsTriple (w : Stats.MWeights) : ℚ × ℚ × ℚ := (w.arima, w.theta, w.ets)

/-- The (trend, moving-average, exponential-smoothing) reading of a
ForecastAccuracyService weight triple. -/
def faccTriple (w : FAcc.FWeights) : ℚ × ℚ × ℚ := (w.linear, w.movingAvg, w.expSmoothing)

/-- Modelled from the spec (§4.4, claim C2): MAPE is the mean over exactly
the positions i with actual[i] > 0 of |actual[i] − forecast[i]|/actual[i],
each retained actual paired with the forecast at the same original position,
times 100. -/
def mapeSpec (actual forecast : List ℚ) : ℚ :=
  let pairs := (actual.zip forecast).filter (fun p => decide (0 < p.1))
  (pairs.map (fun p => |p.1 - p.2| / p.1)).sum / pairs.length * 100

-- Theorems about the JsNum model.

theorem listRange1 : List.range 1 = [0] := rfl

theorem listRange2 : List.range 2 = [0, 1] := rfl

theorem listRange3 : List.range 3 = [0, 1, 2] := rfl

theorem listRange4 : List.range 4 = [0, 1, 2, 3] := rfl

theorem listRange5 : List.range 5 = [0, 1, 2, 3, 4] := rfl

theorem listRange12 : List.range 12 = [0, 1, 2, 3, 4, 5, 6, 7, 8, 9, 10, 11] := rfl

namespace JsNum

@[simp] theorem jneg_num (a : ℚ) : jneg (num a) = num (-a) := rfl

@[simp] theorem jadd_num_num (a b : ℚ) : jadd (num a) (num b) = num (a + b) := rfl

@[simp] theorem jadd_nan_left (x : JsNum) : jadd nan x = nan := by
  cases x <;> rfl

@[simp] theorem jadd_nan_right (x : JsNum) : jadd x nan = nan := by
  cases x <;> rfl

@[simp] theorem jsub_num_num (a b : JsNum) : jsub a b = jadd a (jneg b) := rfl

@[simp] theorem jmul_num_num (a b : ℚ) : jmul (num a) (num b) = num (a * b) := rfl

@[simp] theorem jmul_nan_left (x : JsNum) : jmul nan x = nan := by
  cases x <;> rfl

@[simp] theorem jmul_nan_right (x : JsNum) : jmul x nan = nan := by
  cases x <;> rfl

@[simp] theorem jdiv_nan_left (x : JsNum) : jdiv nan x = nan := by
  cases x <;> rfl

@[simp] theorem jdiv_nan_right (x : JsNum) : jdiv x nan = nan := by
  cases x <;> rfl

theorem jdiv_num_num_of_ne (a b : ℚ) (hb : b ≠ 0) :
    jdiv (num a) (num b) = num (a / b) := by
  simp [jdiv, hb]

@[simp] theorem jabs_num (a : ℚ) : jabs (num a) = num |a| := rfl

@[simp] theorem jabs_nan : jabs nan = nan := rfl

@[simp] theorem jround_num (a : ℚ) : jround (num a) = num (⌊a + 1/2⌋ : ℤ) := rfl

@[simp] theorem jround_nan : jround nan = nan := rfl

@[simp] theorem jmax0_num (a : ℚ) : jmax0 (num a) = num (max 0 a) := rfl

@[simp] theorem jmax0_nan : jmax0 nan = nan := rfl

@[simp] theorem jgtQ_nan (c : ℚ) : jgtQ nan c = false := rfl

@[simp] theorem jgtQ_num (a c : ℚ) : jgtQ (num a) c = decide (c < a) := rfl

@[simp] theorem jsum_nil : jsum [] = num 0 := rfl

/-- Math.max(0, Math.round(r)) on a finite value is a non-negative integer. -/
theorem isNatNum_max0_round (r : ℚ) : isNatNum (jmax0 (jround (num r))) := by
  refine ⟨(⌊r + 1/2⌋).toNat, ?_⟩
  simp only [jround_num, jmax0_num, num.injEq]
  rcases le_or_lt 0 (⌊r + 1/2⌋ : ℤ) with h | h
  · rw [max_eq_right (by exact_mod_cast h)]
    exact_mod_cast (Int.toNat_of_nonneg h).symm
  · rw [max_eq_left (le_of_lt (by exact_mod_cast h))]
    rw [Int.toNat_of_nonpos (le_of_lt h)]
    simp

/-- Summing a list of finite values yields their rational sum. -/
theorem jsum_map_num (l : List ℚ) : jsum (l.map num) = num l.sum := by
  have h : ∀ (a : ℚ), (l.map num).foldl jadd (num a) = num (a + l.sum) := by
    induction l with
    | nil => intro a; simp [jsum]
    | cons x xs ih =>
        intro a
        simp only [List.map_cons, List.foldl_cons, jadd_num_num, List.sum_cons, ih]
        ring_nf
  simpa [jsum] using h 0


end JsNum

theorem insertBy_perm {α : Type} (lt : α → α → Bool) (r : α) (l : List α) :
    (insertBy lt r l).Perm (r :: l) := by
  induction l with
  | nil => simp [insertBy]
  | cons x xs ih =>
      by_cases h : lt r x
      · simp [insertBy, h]
      · simp only [insertBy, h, if_false, Bool.false_eq_true]
        exact (ih.cons x).trans (List.Perm.swap r x xs)

theorem stableSortBy_perm_aux {α : Type} (lt : α → α → Bool) (l acc : List α) :
    (l.foldl (fun acc r => insertBy lt r acc) acc).Perm (acc ++ l) := by
  induction l generalizing acc with
  | nil => simp
  | cons x xs ih =>
      simp only [List.foldl_cons]
      refine (ih (insertBy lt x acc)).trans ?_
      refine (List.Perm.append_right xs (insertBy_perm lt x acc)).trans ?_
      exact List.perm_middle.symm

theorem stableSortBy_perm {α : Type} (lt : α → α → Bool) (l : List α) :
    (stableSortBy lt l).Perm l := by
  simpa [stableSortBy] using stableSortBy_perm_aux lt l []

/-- C10 (amended): prepareTimeSeriesData sorts the caller's array in place:
after the call, the input array holds the date-sorted permutation of its
original contents, and the returned sortedData aliases that array. -/
theorem c10_prepare_sorts_input_in_place (l : List ArimaSvc.ARow) :
    (ArimaSvc.prepareTimeSeriesData l).inputAfter = ArimaSvc.sortByDate l ∧
    (ArimaSvc.prepareTimeSeriesData l).inputAfter.Perm l ∧
    (ArimaSvc.prepareTimeSeriesData l).sortedData = (ArimaSvc.prepareTimeSeriesData l).inputAfter := by
  exact ⟨rfl, stableSortBy_perm _ l, rfl⟩

/-- C10 counterexample: preparing the time series does mutate the caller's
array — for an unsorted two-row input, the array contents after the call
differ from the contents before. -/
theorem c10_counterexample_input_array_reordered :
    (ArimaSvc.prepareTimeSeriesData [⟨2, 5⟩, ⟨1, 3⟩]).inputAfter ≠ [⟨2, 5⟩, ⟨1, 3⟩] := by
  decide

/-- C1: with any non-empty history, a failing remote computation call makes
calculateForecastAccuracy reject with that error — the failure propagates to
the caller instead of producing the structured low-confidence report that
the unreachable post-await guard intends. -/
theorem c1_remote_failure_propagates_to_caller :
    FAcc.calculateForecastAccuracy (fun _ _ _ => Except.error "backend down")
      [⟨1, "A", 5⟩] none = Except.error "backend down" := rfl

/-- C4 counterexample: on a one-point training series the moving-average
window size is 0, every window is empty (0/0 = NaN), and both requested
forecast values are NaN — not a constant-repeat forecast of finite numbers. -/
theorem c4_counterexample_moving_average_nan :
    FAcc.generateMovingAverageForecasts [⟨0, 10, 1⟩] 2 = [JsNum.nan, JsNum.nan] := by
  decide

theorem movingAverage_singleton_nan (r : FAcc.FRow) (periods : ℕ) :
    FAcc.generateMovingAverageForecasts [r] periods =
      (List.range' 1 periods).map (fun _ => JsNum.nan) := by
  have h2 : List.range 2 = [0, 1] := rfl
  simp [FAcc.generateMovingAverageForecasts, h2, JsNum.jdiv, JsNum.jsub, JsNum.jneg]

/-- C4 (amended): on a training series of fewer than 2 points the
moving-average forecaster does not throw but yields NaN for every requested
period (its zero-length window makes every trailing average 0/0); no
per-model exclusion exists — instead the ensemble entry point
generateRobustForecasts returns an empty forecast list whenever the training
series has fewer than 4 buckets. -/
theorem c4_degenerate_models (r : FAcc.FRow) (td : List FAcc.FRow) (periods : ℕ)
    (h : td.length < 4) :
    (∀ x ∈ FAcc.generateMovingAverageForecasts [r] periods, x = JsNum.nan) ∧
    FAcc.generateRobustForecasts td periods = [] := by
  constructor
  · intro x hx
    rw [movingAverage_singleton_nan] at hx
    obtain ⟨i, _, hfx⟩ := List.mem_map.mp hx
    exact hfx.symm
  · simp [FAcc.generateRobustForecasts, h]

theorem c4_degenerate_models_witness :
    ([] : List FAcc.FRow).length < 4 ∧
    ((∀ x ∈ FAcc.generateMovingAverageForecasts [⟨0, 10, 1⟩] 3, x = JsNum.nan) ∧
      FAcc.generateRobustForecasts ([] : List FAcc.FRow) 3 = []) :=
  ⟨by decide, c4_degenerate_models ⟨0, 10, 1⟩ [] 3 (by decide)⟩

theorem weights_eval_stats_q4 :
    Stats.calculateModelWeights [10, 20, 30, 40] = ⟨1/2, 3/10, 1/5⟩ := by
  have hr4 : List.range 4 = [0, 1, 2, 3] := rfl
  have hvol : Stats.volatilityGt [10, 20, 30, 40] (1/2) = false := by
    norm_num [Stats.volatilityGt, Stats.mean, Stats.variance]
  have hslope : (Stats.linearRegression [10, 20, 30, 40]).1 = JsNum.num 10 := by
    norm_num [Stats.linearRegression, Stats.sumIdx, Stats.sumIdxSq, Stats.sumIdxY,
      withIdx, hr4, JsNum.jdiv]
  have htrend : JsNum.jgtQ (Stats.calculateTrendStrength [10, 20, 30, 40]) (3/10) = true := by
    norm_num [Stats.calculateTrendStrength, Stats.mean, hslope, JsNum.jabs, JsNum.jdiv]
  simp only [Stats.calculateModelWeights]
  rw [hvol, htrend]
  simp

theorem weights_eval_facc_td4 :
    FAcc.calculateForecastWeights [⟨0, 10, 1⟩, ⟨1, 20, 1⟩, ⟨2, 30, 1⟩, ⟨3, 40, 1⟩] =
      ⟨2/5, 3/10, 3/10⟩ := by
  have hvol : Stats.volatilityGt [10, 20, 30, 40] (1/2) = false := by
    norm_num [Stats.volatilityGt, Stats.mean, Stats.variance]
  have hvlt : Stats.volatilityLt [10, 20, 30, 40] (1/5) = false := by
    norm_num [Stats.volatilityLt, Stats.mean, Stats.variance]
  have hmap : List.map (fun r => r.soldQuantity)
      ([⟨0, 10, 1⟩, ⟨1, 20, 1⟩, ⟨2, 30, 1⟩, ⟨3, 40, 1⟩] : List FAcc.FRow) =
      [10, 20, 30, 40] := rfl
  simp only [FAcc.calculateForecastWeights]
  rw [hmap, hvol, hvlt]
  simp

/-- C5 counterexample: on the training quantities 10, 20, 30, 40 (coefficient
of variation ≈ 0.45, trend strength 0.4) StatsForecastService's rule table
picks the trend-heavy triple while ForecastAccuracyService's volatility-only
table picks its base triple, so the two ensemble code paths select different
weights for the same training quantities. -/
theorem c5_counterexample_weight_tables_disagree :
    Stats.calculateModelWeights [10, 20, 30, 40] = ⟨1/2, 3/10, 1/5⟩ ∧
    FAcc.calculateForecastWeights [⟨0, 10, 1⟩, ⟨1, 20, 1⟩, ⟨2, 30, 1⟩, ⟨3, 40, 1⟩] =
      ⟨2/5, 3/10, 3/10⟩ ∧
    statsTriple (Stats.calculateModelWeights [10, 20, 30, 40]) ≠
      faccTriple (FAcc.calculateForecastWeights
        [⟨0, 10, 1⟩, ⟨1, 20, 1⟩, ⟨2, 30, 1⟩, ⟨3, 40, 1⟩]) := by
  refine ⟨weights_eval_stats_q4, weights_eval_facc_td4, ?_⟩
  rw [weights_eval_stats_q4, weights_eval_facc_td4]
  norm_num [statsTriple, faccTriple]

/-- C5 (amended): StatsForecastService's calculateModelWeights implements the
canonical priority-ordered rule table of the spec (volatility > 0.5, then
trend strength > 0.3, then seasonality strength > 0.4, else the balanced
default), but ForecastAccuracyService's calculateForecastWeights uses a
different volatility-only table, and the two code paths select different
weight triples for the same training quantities (e.g. 10, 20, 30, 40). -/
theorem c5_weight_tables :
    (∀ q : List ℚ, Stats.calculateModelWeights q =
      canonicalWeights (Stats.volatilityGt q (1/2))
        (JsNum.jgtQ (Stats.calculateTrendStrength q) (3/10))
        (Stats.seasonalityStrengthGt q (2/5))) ∧
    statsTriple (Stats.calculateModelWeights [10, 20, 30, 40]) ≠
      faccTriple (FAcc.calculateForecastWeights
        [⟨0, 10, 1⟩, ⟨1, 20, 1⟩, ⟨2, 30, 1⟩, ⟨3, 40, 1⟩]) := by
  constructor
  · intro q
    rfl
  · rw [weights_eval_stats_q4, weights_eval_facc_td4]
    norm_num [statsTriple, faccTriple]

/-- C2: StatsForecastService's calculateAccuracy filters the actuals and then
indexes the forecasts with the filtered position, so on actuals 0, 10 and
forecasts 5, 0 the retained actual 10 is compared against forecast 5 (the
forecast of the dropped zero position) giving MAPE 50, while the specified
pairing at original positions gives 100; the zero-actual position still
enters the MAE (mean of 5 and 10). -/
theorem c2_stats_mape_misaligns_filtered_pairs :
    (Stats.calculateAccuracy [⟨0, 0, 0⟩, ⟨1, 10, 0⟩] [JsNum.num 5, JsNum.num 0]).mape =
      JsNum.num 50 ∧
    mapeSpec [0, 10] [5, 0] = 100 ∧
    (Stats.calculateAccuracy [⟨0, 0, 0⟩, ⟨1, 10, 0⟩] [JsNum.num 5, JsNum.num 0]).mae =
      JsNum.num (15/2) := by
  refine ⟨?_, ?_, ?_⟩
  · norm_num [Stats.calculateAccuracy, withIdx, listRange1, listRange2, JsNum.jsum,
      JsNum.jdiv, JsNum.jsub, JsNum.jneg, JsNum.jabs, JsNum.jmul, abs_of_nonneg]
  · norm_num [mapeSpec]
  · norm_num [Stats.calculateAccuracy, withIdx, listRange1, listRange2, JsNum.jsum,
      JsNum.jdiv, JsNum.jsub, JsNum.jneg, JsNum.jabs, JsNum.jmul]

/-- C9 counterexample: a previously cached model for the SKU, trained on
different data (here the value series 999), changes the returned forecast:
with the cache entry present the call returns 999, 999; with an empty cache
the same input yields 1, 1. -/
theorem c9_counterexample_stale_cache_changes_forecast :
    (ArimaSvc.generateForecast (fun v => v) (fun m p => List.replicate p (m.headD 0))
        [("A", [999])] [⟨1, 1⟩, ⟨2, 2⟩, ⟨3, 3⟩] 2 (some "A")).map
        (fun o => o.forecastSales) = Except.ok [999, 999] ∧
    (ArimaSvc.generateForecast (fun v => v) (fun m p => List.replicate p (m.headD 0))
        ([] : List (String × List ℚ)) [⟨1, 1⟩, ⟨2, 2⟩, ⟨3, 3⟩] 2 (some "A")).map
        (fun o => o.forecastSales) = Except.ok [1, 1] ∧
    (Except.ok [999, 999] : Except String (List ℚ)) ≠ Except.ok [1, 1] := by
  refine ⟨rfl, rfl, ?_⟩
  intro h
  exact absurd (Except.ok.inj h) (by decide)

/-- C9 (amended): the forecast values are a pure function of the input
observations, horizon and cache state; whenever no model is cached for the
product, the returned values coincide with those of a fresh (empty-cache)
call, i.e. they depend only on the input data and horizon. -/
theorem c9_forecast_deterministic_on_cache_miss {Model : Type}
    (train : List ℚ → Model) (predict : Model → ℕ → List ℚ)
    (cache : List (String × Model)) (salesData : List ArimaSvc.ARow) (periods : ℕ)
    (pid : Option String) (h : ArimaSvc.cacheGet cache pid = none) :
    (ArimaSvc.generateForecast train predict cache salesData periods pid).map
        (fun o => o.forecastSales) =
    (ArimaSvc.generateForecast train predict [] salesData periods pid).map
        (fun o => o.forecastSales) := by
  have h2 : ArimaSvc.cacheGet ([] : List (String × Model)) pid = none := by
    cases pid <;> simp [ArimaSvc.cacheGet]
  by_cases hlen : (ArimaSvc.prepareTimeSeriesData salesData).values.length < 3
  · simp [ArimaSvc.generateForecast, hlen]
  · simp [ArimaSvc.generateForecast, hlen, h, h2, Except.map]

theorem c9_forecast_deterministic_on_cache_miss_witness :
    ArimaSvc.cacheGet [("B", ([7] : List ℚ))] (some "A") = none ∧
    ((ArimaSvc.generateForecast (fun v => v) (fun m p => List.replicate p (m.headD 0))
        [("B", [7])] [⟨1, 1⟩, ⟨2, 2⟩, ⟨3, 3⟩] 2 (some "A")).map
        (fun o => o.forecastSales) =
     (ArimaSvc.generateForecast (fun v => v) (fun m p => List.replicate p (m.headD 0))
        ([] : List (String × List ℚ)) [⟨1, 1⟩, ⟨2, 2⟩, ⟨3, 3⟩] 2 (some "A")).map
        (fun o => o.forecastSales)) :=
  ⟨by decide, c9_forecast_deterministic_on_cache_miss (fun v => v)
    (fun m p => List.replicate p (m.headD 0)) [("B", [7])]
    [⟨1, 1⟩, ⟨2, 2⟩, ⟨3, 3⟩] 2 (some "A") (by decide)⟩

/-- C3 counterexample: with a cooperating backend, a 5-point history splits
into 3 training and 2 validation points; ForecastAccuracyService checks only
the validation minimum, so the call returns a fully assessed report despite
the training portion having fewer than 4 points, instead of rejecting. -/
theorem c3_counterexample_short_training_produces_report :
    (FAcc.calculateForecastAccuracy
        (fun _ periods _ => Except.ok ⟨true, "", some (List.replicate periods ⟨5⟩)⟩)
        [⟨1, "A", 10⟩, ⟨2, "A", 10⟩, ⟨3, "A", 10⟩, ⟨4, "A", 10⟩, ⟨5, "A", 10⟩] none).map
      (fun r => (r.trainingMonths, r.validationMonths, r.recommendation)) =
    Except.ok (3, 2, FAcc.Recommendation.assessed "Poor" 50 none) := by
  norm_num [FAcc.calculateForecastAccuracy, FAcc.pyGenerateForecast, withIdx,
    listRange2, FAcc.calculateMAE, FAcc.calculateMAPE, FAcc.calculateMSE,
    FAcc.categorizeAccuracy, FAcc.calculateConfidence, FAcc.generateRecommendation,
    FAcc.toFixed1, Except.map, abs_of_nonneg]

/-- C3 (amended): the StatsForecastService pipeline rejects a 70/30 split
with fewer than 4 training or fewer than 2 validation buckets, returning the
structured zero-metric failure result (never throwing); the
ForecastAccuracyService path checks only the validation minimum — it returns
its zero-metric report when validation < 2, but a series with at least 2
validation buckets and fewer than 4 training buckets is not rejected there
(see the counterexample). -/
theorem c3_insufficient_split_guards
    (data : List Stats.Obs) (periods : ℕ)
    (oracle : FAcc.PyOracle) (hist : List FAcc.SalesRow) (skuF : Option String)
    (h8 : ¬ data.length < 8)
    (hsplit : (Stats.prepareTimeSeries (Stats.groupByMonth data)).length * 7 / 10 < 4 ∨
      (Stats.prepareTimeSeries (Stats.groupByMonth data)).length -
        (Stats.prepareTimeSeries (Stats.groupByMonth data)).length * 7 / 10 < 2)
    (hv : hist.length - hist.length * 7 / 10 < 2) (hne : hist.length ≠ 0)
    (res : FAcc.PyResult) (hok : FAcc.pyGenerateForecast oracle hist 12 skuF = Except.ok res)
    (hfc : res.forecast ≠ none) :
    Stats.generateForecasts data none periods =
      ⟨false, "Insufficient data split for validation", [], none, 0, 0, 0⟩ ∧
    FAcc.calculateForecastAccuracy oracle hist skuF =
      Except.ok ⟨0, 0, 0, "Poor", 0, FAcc.Recommendation.insufficientValidation, 0, 0, 0, 0⟩ := by
  constructor
  · simp only [Stats.generateForecasts]
    rw [if_neg h8, if_pos]
    rw [List.length_take, List.length_drop]
    rcases hsplit with h | h
    · exact Or.inl (by omega)
    · exact Or.inr (by omega)
  · obtain ⟨fc, hfc2⟩ := Option.ne_none_iff_exists'.mp hfc
    simp only [FAcc.calculateForecastAccuracy]
    rw [if_neg hne, hok]
    simp only [hfc2]
    rw [if_pos]
    rw [List.length_drop]
    exact hv

theorem c3_insufficient_split_guards_witness :
    (¬ ([⟨0, "A", 1, 1⟩, ⟨0, "A", 1, 1⟩, ⟨0, "A", 1, 1⟩, ⟨0, "A", 1, 1⟩,
        ⟨1, "A", 1, 1⟩, ⟨2, "A", 1, 1⟩, ⟨3, "A", 1, 1⟩, ⟨4, "A", 1, 1⟩] :
        List Stats.Obs).length < 8) ∧
    (Stats.generateForecasts
        [⟨0, "A", 1, 1⟩, ⟨0, "A", 1, 1⟩, ⟨0, "A", 1, 1⟩, ⟨0, "A", 1, 1⟩,
         ⟨1, "A", 1, 1⟩, ⟨2, "A", 1, 1⟩, ⟨3, "A", 1, 1⟩, ⟨4, "A", 1, 1⟩] none 12 =
      ⟨false, "Insufficient data split for validation", [], none, 0, 0, 0⟩ ∧
     FAcc.calculateForecastAccuracy (fun _ _ _ => Except.ok ⟨true, "", some []⟩)
        [⟨1, "A", 10⟩, ⟨2, "A", 10⟩, ⟨3, "A", 10⟩] none =
      Except.ok ⟨0, 0, 0, "Poor", 0, FAcc.Recommendation.insufficientValidation, 0, 0, 0, 0⟩) :=
  ⟨by decide,
    c3_insufficient_split_guards
      [⟨0, "A", 1, 1⟩, ⟨0, "A", 1, 1⟩, ⟨0, "A", 1, 1⟩, ⟨0, "A", 1, 1⟩,
       ⟨1, "A", 1, 1⟩, ⟨2, "A", 1, 1⟩, ⟨3, "A", 1, 1⟩, ⟨4, "A", 1, 1⟩] 12
      (fun _ _ _ => Except.ok ⟨true, "", some []⟩)
      [⟨1, "A", 10⟩, ⟨2, "A", 10⟩, ⟨3, "A", 10⟩] none
      (by decide) (by decide) (by decide) (by decide)
      ⟨true, "", some []⟩ rfl (by decide)⟩

theorem assocLookup_updateAssoc {β : Type} (m : List (ℕ × β)) (k k2 : ℕ) (f : β → β) (z : β) :
    assocLookup (updateAssoc m k f z) k2 =
      if k2 = k then some (f ((assocLookup m k).getD z)) else assocLookup m k2 := by
  induction m with
  | nil =>
      by_cases h : k2 = k
      · subst h; simp [updateAssoc, assocLookup]
      · simp [updateAssoc, assocLookup, h, Ne.symm h]
  | cons p rest ih =>
      obtain ⟨k0, b⟩ := p
      by_cases h0 : k0 = k
      · subst h0
        by_cases h2 : k2 = k0
        · subst h2; simp [updateAssoc, assocLookup]
        · simp [updateAssoc, assocLookup, h2, Ne.symm h2]
      · by_cases h2 : k0 = k2
        · subst h2
          simp [updateAssoc, assocLookup, h0, Ne.symm h0, ih]
        · simp [updateAssoc, assocLookup, h0, h2, ih]

theorem groupFold_lookup {α β : Type} (key : α → ℕ) (upd : β → α → β) (z : β)
    (l : List α) (m : List (ℕ × β)) (k : ℕ) :
    assocLookup (l.foldl (fun acc x => updateAssoc acc (key x) (fun b => upd b x) z) m) k =
      (if (l.filter (fun x => key x = k)).isEmpty then assocLookup m k
       else some ((l.filter (fun x => key x = k)).foldl upd ((assocLookup m k).getD z))) := by
  induction l generalizing m with
  | nil => simp
  | cons x xs ih =>
      simp only [List.foldl_cons]
      rw [ih, assocLookup_updateAssoc]
      by_cases hx : key x = k
      · by_cases hemp : (xs.filter (fun y => key y = k)).isEmpty = true
        · rw [List.isEmpty_iff] at hemp
          simp [List.filter_cons, hx, hemp]
        · rw [List.isEmpty_iff] at hemp
          simp [List.filter_cons, hx, hemp]
      · have hxk : ¬ k = key x := fun he => hx he.symm
        simp [List.filter_cons, hx, hxk]

theorem foldl_addToBucket (L : List Stats.Obs) (b : Stats.SBucket) :
    L.foldl Stats.addToBucket b =
      ⟨b.soldQuantity + (L.map (fun o => o.soldQuantity)).sum,
       b.revenue + (L.map (fun o => o.revenue)).sum,
       b.count + L.length⟩ := by
  induction L generalizing b with
  | nil => simp
  | cons x xs ih =>
      simp only [List.foldl_cons, ih, Stats.addToBucket, List.map_cons, List.sum_cons,
        List.length_cons, Stats.SBucket.mk.injEq]
      refine ⟨by ring, by ring, by omega⟩

theorem groupByMonth_lookup (l : List Stats.Obs) (k : ℕ) :
    assocLookup (Stats.groupByMonth l) k =
      (if (l.filter (fun o => o.monthKey = k)).isEmpty then none
       else some ⟨((l.filter (fun o => o.monthKey = k)).map (fun o => o.soldQuantity)).sum,
                  ((l.filter (fun o => o.monthKey = k)).map (fun o => o.revenue)).sum,
                  (l.filter (fun o => o.monthKey = k)).length⟩) := by
  have h := groupFold_lookup (fun o => o.monthKey) Stats.addToBucket Stats.zeroBucket l [] k
  by_cases hemp : (l.filter (fun o => o.monthKey = k)).isEmpty = true
  · simpa [Stats.groupByMonth, assocLookup, hemp] using h
  · simp only [Stats.groupByMonth] at h ⊢
    rw [h]
    simp [hemp, assocLookup, foldl_addToBucket, Stats.zeroBucket]

theorem foldl_addToPBucket (L : List PriceSvc.PObs) (b : PriceSvc.PBucket) :
    L.foldl PriceSvc.addToPBucket b =
      ⟨b.soldQuantity + (L.map (fun o => o.soldQuantity)).sum,
       b.revenue + (L.map (fun o => o.revenue)).sum,
       b.totalCost + (L.map (fun o => o.soldQuantity * o.cost)).sum,
       b.pricePoints ++ L.map (fun o => o.price),
       b.count + L.length⟩ := by
  induction L generalizing b with
  | nil => simp
  | cons x xs ih =>
      simp only [List.foldl_cons, ih, PriceSvc.addToPBucket, List.map_cons, List.sum_cons,
        List.length_cons, PriceSvc.PBucket.mk.injEq]
      refine ⟨by ring, by ring, by ring, by simp, by omega⟩

theorem priceGroup_lookup (l : List PriceSvc.PObs) (k : ℕ) :
    assocLookup (PriceSvc.priceGroup l) k =
      (if (l.filter (fun o => o.monthKey = k)).isEmpty then none
       else some ⟨((l.filter (fun o => o.monthKey = k)).map (fun o => o.soldQuantity)).sum,
                  ((l.filter (fun o => o.monthKey = k)).map (fun o => o.revenue)).sum,
                  ((l.filter (fun o => o.monthKey = k)).map (fun o => o.soldQuantity * o.cost)).sum,
                  (l.filter (fun o => o.monthKey = k)).map (fun o => o.price),
                  (l.filter (fun o => o.monthKey = k)).length⟩) := by
  have h := groupFold_lookup (fun o => o.monthKey) PriceSvc.addToPBucket PriceSvc.zeroPBucket l [] k
  by_cases hemp : (l.filter (fun o => o.monthKey = k)).isEmpty = true
  · simpa [PriceSvc.priceGroup, assocLookup, hemp] using h
  · simp only [PriceSvc.priceGroup] at h ⊢
    rw [h]
    simp [hemp, assocLookup, foldl_addToPBucket, PriceSvc.zeroPBucket]

/-- C7: aggregation is order-independent — permuting the observations yields
pointwise identical monthly buckets in StatsForecastService.groupByMonth
(quantity sums, revenue sums and counts), and in the correlation service's
monthly grouping all sums and the derived per-month average price are
likewise invariant (only the order inside the pricePoints list may differ). -/
theorem c7_aggregation_perm_invariant (l1 l2 : List Stats.Obs)
    (p1 p2 : List PriceSvc.PObs) (h : l1.Perm l2) (hp : p1.Perm p2) :
    (∀ k, assocLookup (Stats.groupByMonth l1) k = assocLookup (Stats.groupByMonth l2) k) ∧
    (∀ k, (assocLookup (PriceSvc.priceGroup p1) k).map
        (fun b => (b.soldQuantity, b.revenue, b.totalCost,
          b.pricePoints.sum / (b.pricePoints.length : ℚ), b.count)) =
      (assocLookup (PriceSvc.priceGroup p2) k).map
        (fun b => (b.soldQuantity, b.revenue, b.totalCost,
          b.pricePoints.sum / (b.pricePoints.length : ℚ), b.count))) := by
  constructor
  · intro k
    have hf : (l1.filter (fun o => o.monthKey = k)).Perm (l2.filter (fun o => o.monthKey = k)) :=
      h.filter _
    rw [groupByMonth_lookup, groupByMonth_lookup]
    have hlen := hf.length_eq
    by_cases hemp : (l1.filter (fun o => o.monthKey = k)).isEmpty = true
    · have h2 : (l2.filter (fun o => o.monthKey = k)).isEmpty = true := by
        rw [List.isEmpty_iff] at hemp ⊢
        rw [hemp] at hlen
        exact List.eq_nil_of_length_eq_zero hlen.symm
      simp [hemp, h2]
    · have h2 : ¬ (l2.filter (fun o => o.monthKey = k)).isEmpty = true := by
        rw [List.isEmpty_iff] at hemp ⊢
        intro hz
        rw [hz] at hlen
        exact hemp (List.eq_nil_of_length_eq_zero hlen)
      simp only [hemp, h2, if_false, Bool.false_eq_true, Option.some.injEq,
        Stats.SBucket.mk.injEq]
      exact ⟨(hf.map (fun o => o.soldQuantity)).sum_eq,
        (hf.map (fun o => o.revenue)).sum_eq, hlen⟩
  · intro k
    have hf : (p1.filter (fun o => o.monthKey = k)).Perm (p2.filter (fun o => o.monthKey = k)) :=
      hp.filter _
    rw [priceGroup_lookup, priceGroup_lookup]
    have hlen := hf.length_eq
    by_cases hemp : (p1.filter (fun o => o.monthKey = k)).isEmpty = true
    · have h2 : (p2.filter (fun o => o.monthKey = k)).isEmpty = true := by
        rw [List.isEmpty_iff] at hemp ⊢
        rw [hemp] at hlen
        exact List.eq_nil_of_length_eq_zero hlen.symm
      simp [hemp, h2]
    · have h2 : ¬ (p2.filter (fun o => o.monthKey = k)).isEmpty = true := by
        rw [List.isEmpty_iff] at hemp ⊢
        intro hz
        rw [hz] at hlen
        exact hemp (List.eq_nil_of_length_eq_zero hlen)
      simp only [hemp, h2, if_false, Bool.false_eq_true, Option.map_some]
      have hq := (hf.map (fun o => o.soldQuantity)).sum_eq
      have hr := (hf.map (fun o => o.revenue)).sum_eq
      have hc := (hf.map (fun o => o.soldQuantity * o.cost)).sum_eq
      have hpp := (hf.map (fun o => o.price)).sum_eq
      simp [hq, hr, hc, hpp, hlen]

theorem c7_aggregation_perm_invariant_witness :
    (([⟨0, "A", 1, 2⟩, ⟨1, "B", 3, 4⟩] : List Stats.Obs).Perm
        [⟨1, "B", 3, 4⟩, ⟨0, "A", 1, 2⟩] ∧
     ([⟨0, "A", 1, 2, 1, 5⟩, ⟨0, "B", 3, 4, 1, 7⟩] : List PriceSvc.PObs).Perm
        [⟨0, "B", 3, 4, 1, 7⟩, ⟨0, "A", 1, 2, 1, 5⟩]) ∧
    ((∀ k, assocLookup (Stats.groupByMonth [⟨0, "A", 1, 2⟩, ⟨1, "B", 3, 4⟩]) k =
        assocLookup (Stats.groupByMonth [⟨1, "B", 3, 4⟩, ⟨0, "A", 1, 2⟩]) k) ∧
     (∀ k, (assocLookup (PriceSvc.priceGroup [⟨0, "A", 1, 2, 1, 5⟩, ⟨0, "B", 3, 4, 1, 7⟩]) k).map
          (fun b => (b.soldQuantity, b.revenue, b.totalCost,
            b.pricePoints.sum / (b.pricePoints.length : ℚ), b.count)) =
        (assocLookup (PriceSvc.priceGroup [⟨0, "B", 3, 4, 1, 7⟩, ⟨0, "A", 1, 2, 1, 5⟩]) k).map
          (fun b => (b.soldQuantity, b.revenue, b.totalCost,
            b.pricePoints.sum / (b.pricePoints.length : ℚ), b.count)))) :=
  ⟨⟨by decide, by decide⟩,
    c7_aggregation_perm_invariant [⟨0, "A", 1, 2⟩, ⟨1, "B", 3, 4⟩]
      [⟨1, "B", 3, 4⟩, ⟨0, "A", 1, 2⟩]
      [⟨0, "A", 1, 2, 1, 5⟩, ⟨0, "B", 3, 4, 1, 7⟩]
      [⟨0, "B", 3, 4, 1, 7⟩, ⟨0, "A", 1, 2, 1, 5⟩] (by decide) (by decide)⟩

theorem addChangesGo_const_price (c : ℚ) :
    ∀ (l : List PriceSvc.DataPoint) (prev : PriceSvc.DataPoint),
      prev.avgPrice = c → (∀ p ∈ l, p.avgPrice = c) →
      ∀ p ∈ PriceSvc.addChangesGo prev l, p.priceChange = 0 ∧ p.avgPrice = c := by
  intro l
  induction l with
  | nil =>
      intro prev _ _ p hp
      simp [PriceSvc.addChangesGo] at hp
  | cons x xs ih =>
      intro prev hprev hl p hp
      have hx : x.avgPrice = c := hl x (List.mem_cons_self x xs)
      have hchange :
          (if 0 < prev.avgPrice then (x.avgPrice - prev.avgPrice) / prev.avgPrice else 0) = 0 := by
        rw [hprev, hx]
        by_cases hc : 0 < c
        · simp [hc]
        · simp [hc]
      simp only [PriceSvc.addChangesGo, List.mem_cons] at hp
      rcases hp with hp | hp
      · subst hp
        exact ⟨hchange, hx⟩
      · refine ih _ ?_ (fun q hq => hl q (List.mem_cons_of_mem x hq)) p hp
        exact hx

theorem pearson_zero_of_const_x (dps : List PriceSvc.DataPoint)
    (h : ∀ p ∈ dps, p.priceChange = 0) :
    PriceSvc.calculatePearsonCorrelation dps = 0 := by
  unfold PriceSvc.calculatePearsonCorrelation
  by_cases hlen : dps.length < 2
  · simp [hlen]
  · simp only [hlen, if_false, Bool.false_eq_true]
    have hsx : (dps.map (fun d => d.priceChange)).sum = 0 := by
      refine List.sum_eq_zero ?_
      intro x hx
      obtain ⟨p, hp, rfl⟩ := List.mem_map.mp hx
      exact h p hp
    have hsxy : (((dps.map (fun d => d.priceChange)).zip
        (dps.map (fun d => d.salesChange))).map (fun p => p.1 * p.2)).sum = 0 := by
      refine List.sum_eq_zero ?_
      intro x hx
      obtain ⟨q, hq, rfl⟩ := List.mem_map.mp hx
      obtain ⟨a, b⟩ := q
      have h1 := (List.of_mem_zip hq).1
      obtain ⟨p, hp, ha⟩ := List.mem_map.mp h1
      have : a = 0 := by rw [← ha]; exact h p hp
      simp [this]
    rw [hsx, hsxy]
    simp

theorem elasticity_zero_of_const_x (dps : List PriceSvc.DataPoint)
    (h : ∀ p ∈ dps, p.priceChange = 0) :
    PriceSvc.calculatePriceElasticity dps = 0 := by
  unfold PriceSvc.calculatePriceElasticity
  by_cases hlen : dps.length < 2
  · simp [hlen]
  · have hfil : dps.filter (fun d => !decide (d.priceChange = 0)) = [] := by
      rw [List.filter_eq_nil_iff]
      intro p hp
      simp [h p hp]
    simp [hlen, hfil]

/-- C8: when every monthly data point carries the same average price, every
month-over-month priceChange is 0, the returned Pearson coefficient is
exactly 0 (the zero numerator short-circuits, whether or not the sqrt
denominator is zero), and the price elasticity is 0 — the
insufficient-variation outcome, never a spurious non-zero coefficient. -/
theorem c8_constant_price_zero_correlation (salesData : List PriceSvc.PObs) (c : ℚ)
    (hconst : ∀ p ∈ PriceSvc.buildDataPoints salesData, p.avgPrice = c) :
    (PriceSvc.correlatePriceWithSales salesData none).correlation = 0 ∧
    (∀ p ∈ (PriceSvc.correlatePriceWithSales salesData none).dataPoints,
      p.priceChange = 0) ∧
    (PriceSvc.correlatePriceWithSales salesData none).priceElasticity = 0 := by
  have hall : ∀ p ∈ (PriceSvc.addChanges (PriceSvc.buildDataPoints salesData)).drop 1,
      p.priceChange = 0 := by
    intro p hp
    cases hbd : PriceSvc.buildDataPoints salesData with
    | nil => rw [hbd] at hp; simp [PriceSvc.addChanges] at hp
    | cons p0 rest =>
        rw [hbd] at hp
        simp only [PriceSvc.addChanges, List.drop_succ_cons, List.drop_zero] at hp
        refine (addChangesGo_const_price c rest p0 ?_ ?_ p hp).1
        · exact hconst p0 (by rw [hbd]; exact List.mem_cons_self p0 rest)
        · intro q hq
          exact hconst q (by rw [hbd]; exact List.mem_cons_of_mem p0 hq)
  unfold PriceSvc.correlatePriceWithSales
  by_cases h0 : salesData.length = 0
  · simp [h0]
  · simp only [h0, if_false, Bool.false_eq_true]
    by_cases hlen : ((PriceSvc.addChanges (PriceSvc.buildDataPoints salesData)).drop 1).length < 2
    · simp only [hlen, if_true]
      exact ⟨trivial, hall, trivial⟩
    · simp only [hlen, if_false, Bool.false_eq_true]
      refine ⟨?_, hall, ?_⟩
      · exact pearson_zero_of_const_x _ hall
      · exact elasticity_zero_of_const_x _ hall

theorem c8_constant_price_zero_correlation_witness :
    (∀ p ∈ PriceSvc.buildDataPoints
        [⟨0, "A", 1, 10, 0, 10⟩, ⟨1, "A", 2, 20, 0, 10⟩, ⟨2, "A", 4, 40, 0, 10⟩],
      p.avgPrice = 10) ∧
    ((PriceSvc.correlatePriceWithSales
        [⟨0, "A", 1, 10, 0, 10⟩, ⟨1, "A", 2, 20, 0, 10⟩, ⟨2, "A", 4, 40, 0, 10⟩]
        none).correlation = 0 ∧
     (∀ p ∈ (PriceSvc.correlatePriceWithSales
        [⟨0, "A", 1, 10, 0, 10⟩, ⟨1, "A", 2, 20, 0, 10⟩, ⟨2, "A", 4, 40, 0, 10⟩]
        none).dataPoints, p.priceChange = 0) ∧
     (PriceSvc.correlatePriceWithSales
        [⟨0, "A", 1, 10, 0, 10⟩, ⟨1, "A", 2, 20, 0, 10⟩, ⟨2, "A", 4, 40, 0, 10⟩]
        none).priceElasticity = 0) :=
  ⟨by norm_num [PriceSvc.buildDataPoints, PriceSvc.priceGroup, updateAssoc,
      PriceSvc.bucketToPoint, PriceSvc.addToPBucket, PriceSvc.zeroPBucket,
      stableSortBy, insertBy],
    c8_constant_price_zero_correlation
      [⟨0, "A", 1, 10, 0, 10⟩, ⟨1, "A", 2, 20, 0, 10⟩, ⟨2, "A", 4, 40, 0, 10⟩] 10
      (by norm_num [PriceSvc.buildDataPoints, PriceSvc.priceGroup, updateAssoc,
        PriceSvc.bucketToPoint, PriceSvc.addToPBucket, PriceSvc.zeroPBucket,
        stableSortBy, insertBy])⟩

theorem sumIdx_eq (n : ℕ) : Stats.sumIdx n = (n : ℚ) * ((n : ℚ) - 1) / 2 := by
  induction n with
  | zero => simp [Stats.sumIdx]
  | succ k ih =>
      unfold Stats.sumIdx at ih ⊢
      rw [List.range_succ, List.map_append, List.sum_append]
      push_cast
      rw [ih]
      simp
      ring

theorem sumIdxSq_eq (n : ℕ) :
    Stats.sumIdxSq n = (n : ℚ) * ((n : ℚ) - 1) * (2 * (n : ℚ) - 1) / 6 := by
  induction n with
  | zero => simp [Stats.sumIdxSq]
  | succ k ih =>
      unfold Stats.sumIdxSq at ih ⊢
      rw [List.range_succ, List.map_append, List.sum_append]
      push_cast
      rw [ih]
      simp
      ring

theorem regression_denom_pos (n : ℕ) (h : 2 ≤ n) :
    0 < (n : ℚ) * Stats.sumIdxSq n - Stats.sumIdx n * Stats.sumIdx n := by
  rw [sumIdx_eq, sumIdxSq_eq]
  have hn : (2 : ℚ) ≤ (n : ℚ) := by exact_mod_cast h
  have key : (n : ℚ) * ((n : ℚ) * ((n : ℚ) - 1) * (2 * (n : ℚ) - 1) / 6) -
      (n : ℚ) * ((n : ℚ) - 1) / 2 * ((n : ℚ) * ((n : ℚ) - 1) / 2) =
      (n : ℚ) ^ 2 * ((n : ℚ) - 1) * ((n : ℚ) + 1) / 12 := by ring
  rw [key]
  have h1 : (0 : ℚ) < (n : ℚ) ^ 2 := by positivity
  have h2 : (0 : ℚ) < (n : ℚ) - 1 := by linarith
  have h3 : (0 : ℚ) < (n : ℚ) + 1 := by linarith
  have h4 : (0 : ℚ) < (12 : ℚ) := by norm_num
  exact div_pos (mul_pos (mul_pos h1 h2) h3) h4

theorem linearRegression_num (q : List ℚ) (h : 2 ≤ q.length) :
    ∃ s t : ℚ, Stats.linearRegression q = (JsNum.num s, JsNum.num t) := by
  have hd := regression_denom_pos q.length h
  have hdne : (q.length : ℚ) * Stats.sumIdxSq q.length -
      Stats.sumIdx q.length * Stats.sumIdx q.length ≠ 0 := ne_of_gt hd
  have hn : (q.length : ℚ) ≠ 0 := by
    have : 0 < q.length := by omega
    exact_mod_cast Nat.pos_iff_ne_zero.mp this
  have heq : Stats.linearRegression q =
      (JsNum.num (((q.length : ℚ) * Stats.sumIdxY q - Stats.sumIdx q.length * q.sum) /
        ((q.length : ℚ) * Stats.sumIdxSq q.length - Stats.sumIdx q.length * Stats.sumIdx q.length)),
       JsNum.num ((q.sum + -((((q.length : ℚ) * Stats.sumIdxY q - Stats.sumIdx q.length * q.sum) /
        ((q.length : ℚ) * Stats.sumIdxSq q.length - Stats.sumIdx q.length * Stats.sumIdx q.length)) *
          Stats.sumIdx q.length)) / (q.length : ℚ))) := by
    simp only [Stats.linearRegression]
    rw [JsNum.jdiv_num_num_of_ne _ _ hdne]
    simp only [JsNum.jmul_num_num, JsNum.jsub_num_num, JsNum.jneg_num, JsNum.jadd_num_num]
    rw [JsNum.jdiv_num_num_of_ne _ _ hn]
  exact ⟨_, _, heq⟩

theorem foldSlots_fst_nonneg {γ : Type} (sl : γ → ℕ) (v : γ → ℚ) (L : List γ)
    (acc : ℕ → ℚ × ℕ) (hL : ∀ x ∈ L, 0 ≤ v x) (hacc : ∀ m, 0 ≤ (acc m).1) (m : ℕ) :
    0 ≤ ((L.foldl (fun acc x => fun m =>
      if m = sl x then ((acc m).1 + v x, (acc m).2 + 1) else acc m) acc) m).1 := by
  induction L generalizing acc with
  | nil => exact hacc m
  | cons x xs ih =>
      simp only [List.foldl_cons]
      refine ih _ (fun y hy => hL y (List.mem_cons_of_mem x hy)) ?_
      intro m2
      dsimp only
      by_cases hm : m2 = sl x
      · rw [if_pos hm]
        exact add_nonneg (hacc m2) (hL x (List.mem_cons_self x xs))
      · rw [if_neg hm]
        exact hacc m2

theorem foldSlots_untouched {γ : Type} (sl : γ → ℕ) (v : γ → ℚ) (L : List γ)
    (acc : ℕ → ℚ × ℕ) (m : ℕ) (hm : ∀ x ∈ L, sl x ≠ m) :
    ((L.foldl (fun acc x => fun m =>
      if m = sl x then ((acc m).1 + v x, (acc m).2 + 1) else acc m) acc) m) = acc m := by
  induction L generalizing acc with
  | nil => rfl
  | cons x xs ih =>
      simp only [List.foldl_cons]
      rw [ih _ (fun y hy => hm y (List.mem_cons_of_mem x hy))]
      have hne : ¬ m = sl x := fun he => hm x (List.mem_cons_self x xs) he.symm
      rw [if_neg hne]

theorem slotFold_fst_nonneg {γ : Type} (sl : γ → ℕ) (v : γ → ℚ) (L : List γ)
    (hL : ∀ x ∈ L, 0 ≤ v x) (m : ℕ) : 0 ≤ (slotFold sl v L m).1 :=
  foldSlots_fst_nonneg sl v L (fun _ => (0, 0)) hL (fun _ => le_refl 0) m

theorem slotFold_untouched {γ : Type} (sl : γ → ℕ) (v : γ → ℚ) (L : List γ)
    (m : ℕ) (hm : ∀ x ∈ L, sl x ≠ m) : slotFold sl v L m = (0, 0) :=
  foldSlots_untouched sl v L (fun _ => (0, 0)) m hm

theorem monthlyAgg_fst_nonneg (q : List ℚ) (hq : ∀ x ∈ q, 0 ≤ x) (m : ℕ) :
    0 ≤ (Stats.monthlyAgg q m).1 := by
  unfold Stats.monthlyAgg
  refine slotFold_fst_nonneg _ _ _ ?_ m
  intro p hp
  obtain ⟨a, b⟩ := p
  exact hq b (List.of_mem_zip hp).2

theorem monthlyMean_nonneg (q : List ℚ) (hq : ∀ x ∈ q, 0 ≤ x) (m : ℕ) :
    0 ≤ Stats.monthlyMean q m := by
  unfold Stats.monthlyMean
  by_cases hc : 0 < (Stats.monthlyAgg q m).2
  · rw [if_pos hc]
    exact div_nonneg (monthlyAgg_fst_nonneg q hq m) (by positivity)
  · rw [if_neg hc]

theorem monthlyMean_eq_zero_of_ge12 (q : List ℚ) (m : ℕ) (h : 12 ≤ m) :
    Stats.monthlyMean q m = 0 := by
  have hagg : Stats.monthlyAgg q m = (0, 0) := by
    unfold Stats.monthlyAgg
    refine slotFold_untouched _ _ _ m ?_
    intro p _
    show p.1 % 12 ≠ m
    have := Nat.mod_lt p.1 (show 0 < 12 by norm_num)
    omega
  unfold Stats.monthlyMean
  rw [hagg]
  simp

theorem seasonalFactorOr1_num (q : List ℚ) (hq : ∀ x ∈ q, 0 ≤ x) (m : ℕ) :
    ∃ a : ℚ, Stats.seasonalFactorOr1 q m = JsNum.num a := by
  unfold Stats.seasonalFactorOr1 Stats.seasonalFactors
  by_cases hpos : 0 < Stats.monthlyMean q m
  · have hm12 : m < 12 := by
      by_contra hge
      rw [monthlyMean_eq_zero_of_ge12 q m (by omega)] at hpos
      exact lt_irrefl 0 hpos
    have hmem : Stats.monthlyMean q m ∈ Stats.monthlyMeansList q := by
      exact List.mem_map_of_mem _ (List.mem_range.mpr hm12)
    have hnonneg : ∀ x ∈ Stats.monthlyMeansList q, 0 ≤ x := by
      intro x hx
      obtain ⟨mm, _, rfl⟩ := List.mem_map.mp hx
      exact monthlyMean_nonneg q hq mm
    have hsum : 0 < (Stats.monthlyMeansList q).sum :=
      lt_of_lt_of_le hpos (List.single_le_sum hnonneg _ hmem)
    have hcntpos : 0 < ((Stats.monthlyMeansList q).filter (fun x => decide (0 < x))).length := by
      have hmf : Stats.monthlyMean q m ∈
          (Stats.monthlyMeansList q).filter (fun x => decide (0 < x)) :=
        List.mem_filter.mpr ⟨hmem, by simpa using hpos⟩
      exact List.length_pos.mpr (List.ne_nil_of_mem hmf)
    have hCne : ((((Stats.monthlyMeansList q).filter (fun x => decide (0 < x))).length : ℚ)) ≠ 0 := by
      exact_mod_cast Nat.pos_iff_ne_zero.mp hcntpos
    have hover : Stats.overallMean q = JsNum.num ((Stats.monthlyMeansList q).sum /
        ((((Stats.monthlyMeansList q).filter (fun x => decide (0 < x))).length : ℚ))) := by
      unfold Stats.overallMean
      exact JsNum.jdiv_num_num_of_ne _ _ hCne
    have hratio : (0 : ℚ) < (Stats.monthlyMeansList q).sum /
        ((((Stats.monthlyMeansList q).filter (fun x => decide (0 < x))).length : ℚ)) := by
      refine div_pos hsum ?_
      exact_mod_cast hcntpos
    rw [if_pos hpos, hover, Option.getD_some]
    rw [JsNum.jdiv_num_num_of_ne _ _ (ne_of_gt hratio)]
    exact ⟨_, rfl⟩
  · rw [if_neg hpos]
    exact ⟨1, rfl⟩

theorem arima_isNat (q : List ℚ) (periods : ℕ) (h2 : 2 ≤ q.length)
    (hq : ∀ x ∈ q, 0 ≤ x) :
    ∀ y ∈ Stats.generateARIMAForecasts q periods, JsNum.isNatNum y := by
  intro y hy
  obtain ⟨s, t, hlr⟩ := linearRegression_num q h2
  simp only [Stats.generateARIMAForecasts] at hy
  obtain ⟨i, _, rfl⟩ := List.mem_map.mp hy
  obtain ⟨a, hfa⟩ := seasonalFactorOr1_num q hq ((q.length + i - 1) % 12)
  rw [hlr, hfa]
  simp only [JsNum.jmul_num_num, JsNum.jadd_num_num]
  exact JsNum.isNatNum_max0_round _

theorem ets_isNat (q : List ℚ) (periods : ℕ) (hne : q ≠ []) :
    ∀ y ∈ Stats.generateETSForecasts q periods, JsNum.isNatNum y := by
  cases q with
  | nil => exact absurd rfl hne
  | cons q0 rest =>
      intro y hy
      simp only [Stats.generateETSForecasts] at hy
      obtain ⟨i, _, rfl⟩ := List.mem_map.mp hy
      exact JsNum.isNatNum_max0_round _

theorem jget_num (l : List ℚ) (k : ℕ) (hk : k < l.length) :
    ∃ a : ℚ, JsNum.jget l k = JsNum.num a := by
  refine ⟨l.get ⟨k, hk⟩, ?_⟩
  simp [JsNum.jget, List.getElem?_eq_getElem hk]

theorem theta_isNat (q : List ℚ) (periods : ℕ) (h2 : 2 ≤ q.length) :
    ∀ y ∈ Stats.generateThetaForecasts q periods, JsNum.isNatNum y := by
  intro y hy
  simp only [Stats.generateThetaForecasts] at hy
  obtain ⟨i, _, rfl⟩ := List.mem_map.mp hy
  have hlen : (Stats.calculateTrend q).length = q.length := by
    simp [Stats.calculateTrend]
  obtain ⟨a0, h0⟩ := jget_num (Stats.calculateTrend q) 0 (by omega)
  obtain ⟨a1, h1⟩ := jget_num (Stats.calculateTrend q) 1 (by omega)
  obtain ⟨a2, h3⟩ := jget_num (Stats.calculateTrend q) (q.length - 1) (by omega)
  rw [h0, h1, h3]
  simp only [JsNum.jsub_num_num, JsNum.jneg_num, JsNum.jadd_num_num, JsNum.jmul_num_num]
  exact JsNum.isNatNum_max0_round _

theorem modelWeights_sum (q : List ℚ) :
    (Stats.calculateModelWeights q).arima + (Stats.calculateModelWeights q).ets +
      (Stats.calculateModelWeights q).theta = 1 := by
  unfold Stats.calculateModelWeights
  split_ifs <;> norm_num

theorem getD_isNat (l : List JsNum) (i : ℕ) (hi : i < l.length)
    (hall : ∀ y ∈ l, JsNum.isNatNum y) : ∃ a : ℚ, l.getD i JsNum.nan = JsNum.num a := by
  have hmem : l.getD i JsNum.nan ∈ l := by
    rw [List.getD_eq_getElem l JsNum.nan hi]
    exact List.getElem_mem hi
  obtain ⟨m, hm⟩ := hall _ hmem
  exact ⟨m, hm⟩

theorem single_isNat (q : List ℚ) (periods : ℕ) (h2 : 2 ≤ q.length)
    (hq : ∀ x ∈ q, 0 ≤ x) :
    ∀ y ∈ Stats.generateSingleForecast q periods, JsNum.isNatNum y := by
  intro y hy
  simp only [Stats.generateSingleForecast] at hy
  obtain ⟨i, hi, rfl⟩ := List.mem_map.mp hy
  have hiP : i < periods := List.mem_range.mp hi
  have hlenA : (Stats.generateARIMAForecasts q periods).length = periods := by
    simp [Stats.generateARIMAForecasts]
  have hlenE : (Stats.generateETSForecasts q periods).length = periods := by
    cases q with
    | nil => simp at h2
    | cons q0 rest => simp [Stats.generateETSForecasts]
  have hlenT : (Stats.generateThetaForecasts q periods).length = periods := by
    simp [Stats.generateThetaForecasts]
  have hneq : q ≠ [] := by
    intro hq0
    rw [hq0] at h2
    simp at h2
  obtain ⟨av, hav⟩ := getD_isNat _ i (by omega)
    (arima_isNat q periods h2 hq)
  obtain ⟨ev, hev⟩ := getD_isNat _ i (by omega)
    (ets_isNat q periods hneq)
  obtain ⟨tv, htv⟩ := getD_isNat _ i (by omega)
    (theta_isNat q periods h2)
  rw [hav, hev, htv]
  simp only [JsNum.jmul_num_num, JsNum.jadd_num_num]
  rw [modelWeights_sum q]
  rw [JsNum.jdiv_num_num_of_ne _ _ (by norm_num : (1 : ℚ) ≠ 0)]
  exact JsNum.isNatNum_max0_round _

theorem monthlyMeanD_nonneg (td : List FAcc.FRow) (htd : ∀ r ∈ td, 0 ≤ r.soldQuantity)
    (m : ℕ) : 0 ≤ FAcc.monthlyMeanD td m := by
  have hfst : 0 ≤ (FAcc.monthlyAggD td m).1 := by
    unfold FAcc.monthlyAggD
    exact slotFold_fst_nonneg _ _ _ (fun r hr => htd r hr) m
  unfold FAcc.monthlyMeanD
  by_cases hc : 0 < (FAcc.monthlyAggD td m).2
  · rw [if_pos hc]
    exact div_nonneg hfst (by positivity)
  · rw [if_neg hc]

theorem monthlyMeanD_eq_zero_of_ge12 (td : List FAcc.FRow) (m : ℕ) (h : 12 ≤ m) :
    FAcc.monthlyMeanD td m = 0 := by
  have hagg : FAcc.monthlyAggD td m = (0, 0) := by
    unfold FAcc.monthlyAggD
    refine slotFold_untouched _ _ _ m ?_
    intro r _
    show (r.monthIdx : ℕ) ≠ m
    have := r.monthIdx.isLt
    omega
  unfold FAcc.monthlyMeanD
  rw [hagg]
  simp

theorem seasonalFactorD_num (td : List FAcc.FRow) (htd : ∀ r ∈ td, 0 ≤ r.soldQuantity)
    (m : ℕ) : ∃ a : ℚ, (FAcc.seasonalFactorsD td m).getD (JsNum.num 1) = JsNum.num a := by
  unfold FAcc.seasonalFactorsD
  by_cases hpos : 0 < FAcc.monthlyMeanD td m
  · have hm12 : m < 12 := by
      by_contra hge
      rw [monthlyMeanD_eq_zero_of_ge12 td m (by omega)] at hpos
      exact lt_irrefl 0 hpos
    have hmem : FAcc.monthlyMeanD td m ∈ FAcc.monthlyMeansListD td :=
      List.mem_map_of_mem _ (List.mem_range.mpr hm12)
    have hnonneg : ∀ x ∈ FAcc.monthlyMeansListD td, 0 ≤ x := by
      intro x hx
      obtain ⟨mm, _, rfl⟩ := List.mem_map.mp hx
      exact monthlyMeanD_nonneg td htd mm
    have hsum : 0 < (FAcc.monthlyMeansListD td).sum :=
      lt_of_lt_of_le hpos (List.single_le_sum hnonneg _ hmem)
    have hcntpos : 0 < ((FAcc.monthlyMeansListD td).filter (fun x => decide (0 < x))).length := by
      have hmf : FAcc.monthlyMeanD td m ∈
          (FAcc.monthlyMeansListD td).filter (fun x => decide (0 < x)) :=
        List.mem_filter.mpr ⟨hmem, by simpa using hpos⟩
      exact List.length_pos.mpr (List.ne_nil_of_mem hmf)
    have hCne : ((((FAcc.monthlyMeansListD td).filter (fun x => decide (0 < x))).length : ℚ)) ≠ 0 := by
      exact_mod_cast Nat.pos_iff_ne_zero.mp hcntpos
    have hover : FAcc.overallMeanD td = JsNum.num ((FAcc.monthlyMeansListD td).sum /
        ((((FAcc.monthlyMeansListD td).filter (fun x => decide (0 < x))).length : ℚ))) := by
      unfold FAcc.overallMeanD
      exact JsNum.jdiv_num_num_of_ne _ _ hCne
    have hratio : (0 : ℚ) < (FAcc.monthlyMeansListD td).sum /
        ((((FAcc.monthlyMeansListD td).filter (fun x => decide (0 < x))).length : ℚ)) := by
      refine div_pos hsum ?_
      exact_mod_cast hcntpos
    rw [if_pos hpos, Option.getD_some, hover]
    rw [JsNum.jdiv_num_num_of_ne _ _ (ne_of_gt hratio)]
    exact ⟨_, rfl⟩
  · rw [if_neg hpos]
    exact ⟨1, rfl⟩

theorem linearTrend_isNat (td : List FAcc.FRow) (periods : ℕ) (h2 : 2 ≤ td.length)
    (htd : ∀ r ∈ td, 0 ≤ r.soldQuantity) :
    ∀ y ∈ FAcc.generateLinearTrendForecasts td periods, JsNum.isNatNum y := by
  intro y hy
  have h2q : 2 ≤ (td.map (fun r => r.soldQuantity)).length := by
    rw [List.length_map]
    exact h2
  obtain ⟨s, t, hlr⟩ := linearRegression_num (td.map (fun r => r.soldQuantity)) h2q
  simp only [FAcc.generateLinearTrendForecasts] at hy
  obtain ⟨i, _, rfl⟩ := List.mem_map.mp hy
  obtain ⟨a, hfa⟩ := seasonalFactorD_num td htd ((FAcc.lastMonthIdx td + i) % 12)
  rw [hlr, hfa]
  simp only [JsNum.jmul_num_num, JsNum.jadd_num_num]
  exact JsNum.isNatNum_max0_round _

theorem movingAverage_isNat (td : List FAcc.FRow) (periods : ℕ) (h4 : 4 ≤ td.length) :
    ∀ y ∈ FAcc.generateMovingAverageForecasts td periods, JsNum.isNatNum y := by
  intro y hy
  simp only [FAcc.generateMovingAverageForecasts] at hy
  obtain ⟨i, _, rfl⟩ := List.mem_map.mp hy
  set q := td.map (fun r => r.soldQuantity) with hqdef
  have hqlen : q.length = td.length := by simp [hqdef]
  set ws := min 6 (q.length / 2) with hwsdef
  have hws2 : 2 ≤ ws := by
    rw [hwsdef]
    omega
  have hwsle : ws ≤ q.length := by
    rw [hwsdef]
    omega
  set mas := (List.range (q.length + 1 - ws)).map (fun j =>
    JsNum.jdiv (JsNum.num ((q.drop j).take ws).sum)
      (JsNum.num (((q.drop j).take ws).length : ℚ))) with hmasdef
  have hmaslen : mas.length = q.length + 1 - ws := by
    simp [hmasdef]
  have hmasnum : ∀ y ∈ mas, ∃ a : ℚ, y = JsNum.num a := by
    intro y hy2
    rw [hmasdef] at hy2
    obtain ⟨j, hj, rfl⟩ := List.mem_map.mp hy2
    have hjlt : j < q.length + 1 - ws := List.mem_range.mp hj
    have hwlen : ((q.drop j).take ws).length = min ws (q.length - j) := by
      simp
    have hwpos : 0 < ((q.drop j).take ws).length := by
      rw [hwlen]
      omega
    have hne : ((((q.drop j).take ws).length : ℕ) : ℚ) ≠ 0 := by
      exact_mod_cast Nat.pos_iff_ne_zero.mp hwpos
    rw [JsNum.jdiv_num_num_of_ne _ _ hne]
    exact ⟨_, rfl⟩
  have hmaspos : 0 < mas.length := by
    rw [hmaslen]
    omega
  obtain ⟨lastv, hlast⟩ := by
    refine hmasnum (mas.getD (mas.length - 1) JsNum.nan) ?_
    rw [List.getD_eq_getElem mas JsNum.nan (by omega)]
    exact List.getElem_mem _
  have htrend : ∃ tv : ℚ, (if 1 < mas.length then
      JsNum.jdiv (JsNum.jsub (mas.getD (mas.length - 1) JsNum.nan) (mas.getD 0 JsNum.nan))
        (JsNum.num ((mas.length : ℚ) - 1))
    else JsNum.num 0) = JsNum.num tv := by
    by_cases hgt : 1 < mas.length
    · obtain ⟨fv, hfirst⟩ := by
        refine hmasnum (mas.getD 0 JsNum.nan) ?_
        rw [List.getD_eq_getElem mas JsNum.nan (by omega)]
        exact List.getElem_mem _
      have hdne : ((mas.length : ℚ) - 1) ≠ 0 := by
        have h2q : (2 : ℚ) ≤ (mas.length : ℚ) := by exact_mod_cast hgt
        intro hzero
        nlinarith
      rw [if_pos hgt, hlast, hfirst]
      simp only [JsNum.jsub_num_num, JsNum.jneg_num, JsNum.jadd_num_num]
      rw [JsNum.jdiv_num_num_of_ne _ _ hdne]
      exact ⟨_, rfl⟩
    · rw [if_neg hgt]
      exact ⟨0, rfl⟩
  obtain ⟨tv, htv⟩ := htrend
  rw [htv, hlast]
  simp only [JsNum.jmul_num_num, JsNum.jadd_num_num]
  exact JsNum.isNatNum_max0_round _

theorem expSmoothing_isNat (td : List FAcc.FRow) (periods : ℕ) (hne : td ≠ []) :
    ∀ y ∈ FAcc.generateExponentialSmoothingForecasts td periods, JsNum.isNatNum y := by
  intro y hy
  unfold FAcc.generateExponentialSmoothingForecasts at hy
  cases htd : td.map (fun r => r.soldQuantity) with
  | nil =>
      rw [htd] at hy
      have : td = [] := by
        cases td with
        | nil => rfl
        | cons a l => simp at htd
      exact absurd this hne
  | cons q0 rest =>
      rw [htd] at hy
      obtain ⟨i, _, rfl⟩ := List.mem_map.mp hy
      exact JsNum.isNatNum_max0_round _

theorem forecastWeights_sum (td : List FAcc.FRow) :
    (FAcc.calculateForecastWeights td).linear + (FAcc.calculateForecastWeights td).movingAvg +
      (FAcc.calculateForecastWeights td).expSmoothing = 1 := by
  simp only [FAcc.calculateForecastWeights]
  split_ifs <;> norm_num

theorem robust_isNat (td : List FAcc.FRow) (periods : ℕ)
    (htd : ∀ r ∈ td, 0 ≤ r.soldQuantity) :
    ∀ pt ∈ FAcc.generateRobustForecasts td periods, JsNum.isNatNum pt.soldQuantity := by
  intro pt hpt
  unfold FAcc.generateRobustForecasts at hpt
  by_cases h4 : td.length < 4
  · rw [if_pos h4] at hpt
    simp at hpt
  · rw [if_neg h4] at hpt
    obtain ⟨i, hi, rfl⟩ := List.mem_map.mp hpt
    have hiP : i < periods := List.mem_range.mp hi
    have h2 : 2 ≤ td.length := by omega
    have hnetd : td ≠ [] := by
      intro h0
      rw [h0] at h4
      simp at h4
    have hlenL : (FAcc.generateLinearTrendForecasts td periods).length = periods := by
      simp [FAcc.generateLinearTrendForecasts]
    have hlenM : (FAcc.generateMovingAverageForecasts td periods).length = periods := by
      simp [FAcc.generateMovingAverageForecasts]
    have hlenE : (FAcc.generateExponentialSmoothingForecasts td periods).length = periods := by
      unfold FAcc.generateExponentialSmoothingForecasts
      cases htd2 : td.map (fun r => r.soldQuantity) with
      | nil => simp
      | cons q0 rest => simp
    obtain ⟨lv, hlv⟩ := getD_isNat _ i (by omega) (linearTrend_isNat td periods h2 htd)
    obtain ⟨mv, hmv⟩ := getD_isNat _ i (by omega) (movingAverage_isNat td periods (by omega))
    obtain ⟨ev, hev⟩ := getD_isNat _ i (by omega) (expSmoothing_isNat td periods hnetd)
    simp only
    rw [hlv, hmv, hev]
    simp only [JsNum.jmul_num_num, JsNum.jadd_num_num]
    rw [forecastWeights_sum td]
    rw [JsNum.jdiv_num_num_of_ne _ _ (by norm_num : (1 : ℚ) ≠ 0)]
    exact JsNum.isNatNum_max0_round _

/-- C6 (amended): for every training series of at least 2 points with
non-negative quantities, every individual model forecast value and every
combined generateSingleForecast value is a non-negative integer; and every
forecast the robust ensemble emits (it emits none below 4 training buckets)
has a non-negative integer quantity.  On a 1-point series the claim fails:
the ARIMA-like and Theta-like models produce NaN (see the counterexample). -/
theorem c6_forecasts_nonneg_integers (q : List ℚ) (periods : ℕ) (td : List FAcc.FRow)
    (h2 : 2 ≤ q.length) (hq : ∀ x ∈ q, 0 ≤ x) (htd : ∀ r ∈ td, 0 ≤ r.soldQuantity) :
    (∀ y ∈ Stats.generateARIMAForecasts q periods, JsNum.isNatNum y) ∧
    (∀ y ∈ Stats.generateETSForecasts q periods, JsNum.isNatNum y) ∧
    (∀ y ∈ Stats.generateThetaForecasts q periods, JsNum.isNatNum y) ∧
    (∀ y ∈ Stats.generateSingleForecast q periods, JsNum.isNatNum y) ∧
    (∀ pt ∈ FAcc.generateRobustForecasts td periods, JsNum.isNatNum pt.soldQuantity) := by
  have hneq : q ≠ [] := by
    intro h0
    rw [h0] at h2
    simp at h2
  exact ⟨arima_isNat q periods h2 hq, ets_isNat q periods hneq, theta_isNat q periods h2,
    single_isNat q periods h2 hq, robust_isNat td periods htd⟩

theorem c6_forecasts_nonneg_integers_witness :
    (2 ≤ ([3, 5] : List ℚ).length ∧ (∀ x ∈ ([3, 5] : List ℚ), 0 ≤ x) ∧
      (∀ r ∈ ([⟨0, 1, 1⟩, ⟨1, 2, 1⟩, ⟨2, 3, 1⟩, ⟨3, 4, 1⟩] : List FAcc.FRow),
        0 ≤ r.soldQuantity)) ∧
    ((∀ y ∈ Stats.generateARIMAForecasts [3, 5] 2, JsNum.isNatNum y) ∧
     (∀ y ∈ Stats.generateETSForecasts [3, 5] 2, JsNum.isNatNum y) ∧
     (∀ y ∈ Stats.generateThetaForecasts [3, 5] 2, JsNum.isNatNum y) ∧
     (∀ y ∈ Stats.generateSingleForecast [3, 5] 2, JsNum.isNatNum y) ∧
     (∀ pt ∈ FAcc.generateRobustForecasts
        [⟨0, 1, 1⟩, ⟨1, 2, 1⟩, ⟨2, 3, 1⟩, ⟨3, 4, 1⟩] 2, JsNum.isNatNum pt.soldQuantity)) :=
  ⟨⟨by decide, by decide, by decide⟩,
    c6_forecasts_nonneg_integers [3, 5] 2 [⟨0, 1, 1⟩, ⟨1, 2, 1⟩, ⟨2, 3, 1⟩, ⟨3, 4, 1⟩]
      (by decide) (by decide) (by decide)⟩

theorem monthlyMean5_one : Stats.monthlyMean [5] 1 = 0 := by
  norm_num [Stats.monthlyMean, Stats.monthlyAgg, slotFold, withIdx, listRange1]

theorem arima5_eval : Stats.generateARIMAForecasts [5] 1 = [JsNum.nan] := by
  have hsf : Stats.seasonalFactorOr1 [5] 1 = JsNum.num 1 := by
    norm_num [Stats.seasonalFactorOr1, Stats.seasonalFactors, monthlyMean5_one]
  have hslope : (Stats.linearRegression [5]).1 = JsNum.nan := by
    norm_num [Stats.linearRegression, Stats.sumIdx, Stats.sumIdxSq, Stats.sumIdxY,
      withIdx, listRange1, JsNum.jdiv]
  have hintercept : (Stats.linearRegression [5]).2 = JsNum.nan := by
    norm_num [Stats.linearRegression, Stats.sumIdx, Stats.sumIdxSq, Stats.sumIdxY,
      withIdx, listRange1, JsNum.jdiv, JsNum.jsub, JsNum.jneg, JsNum.jmul]
  norm_num [Stats.generateARIMAForecasts, List.range', hslope, hintercept, hsf,
    JsNum.jmul, JsNum.jadd, JsNum.jround, JsNum.jmax0]

theorem ets5_eval : Stats.generateETSForecasts [5] 1 = [JsNum.num 5] := by
  norm_num [Stats.generateETSForecasts, withIdx, listRange12, List.range',
    JsNum.jround, JsNum.jmax0]

theorem theta5_eval : Stats.generateThetaForecasts [5] 1 = [JsNum.nan] := by
  have htrend : Stats.calculateTrend [5] = [5] := by
    norm_num [Stats.calculateTrend, listRange1]
  norm_num [Stats.generateThetaForecasts, htrend, Stats.calculateSeasonal, List.range',
    monthlyMean5_one, listRange12, JsNum.jget, JsNum.jadd, JsNum.jsub, JsNum.jneg,
    JsNum.jmul, JsNum.jround, JsNum.jmax0]

theorem weights5_eval : Stats.calculateModelWeights [5] = ⟨2/5, 3/10, 3/10⟩ := by
  have hvol : Stats.volatilityGt [5] (1/2) = false := by
    norm_num [Stats.volatilityGt, Stats.mean, Stats.variance]
  have hslope : (Stats.linearRegression [5]).1 = JsNum.nan := by
    norm_num [Stats.linearRegression, Stats.sumIdx, Stats.sumIdxSq, Stats.sumIdxY,
      withIdx, listRange1, JsNum.jdiv]
  have htrend : JsNum.jgtQ (Stats.calculateTrendStrength [5]) (3/10) = false := by
    norm_num [Stats.calculateTrendStrength, Stats.mean, hslope, JsNum.jabs, JsNum.jdiv]
  have hseas : Stats.seasonalityStrengthGt [5] (2/5) = false := by
    have hmm0 : Stats.monthlyMean [5] 0 = 5 := by
      norm_num [Stats.monthlyMean, Stats.monthlyAgg, slotFold, withIdx, listRange1]
    have hmmk : ∀ k, Stats.monthlyMean [5] (k + 1) = 0 := by
      intro k
      norm_num [Stats.monthlyMean, Stats.monthlyAgg, slotFold, withIdx, listRange1]
    have hfl : Stats.factorsList [5] = [JsNum.num 1] := by
      have hml : Stats.monthlyMeansList [5] = [5, 0, 0, 0, 0, 0, 0, 0, 0, 0, 0, 0] := by
        simp only [Stats.monthlyMeansList, listRange12, List.map_cons, List.map_nil,
          hmm0, hmmk]
      have hover : Stats.overallMean [5] = JsNum.num 5 := by
        norm_num [Stats.overallMean, hml, JsNum.jdiv]
      simp only [Stats.factorsList, listRange12, List.filterMap_cons, Stats.seasonalFactors,
        hmm0, hmmk, hover]
      norm_num [JsNum.jdiv]
    norm_num [Stats.seasonalityStrengthGt, Stats.factorsQ, hfl, Stats.mean, Stats.variance,
      List.filterMap_cons, List.filterMap_nil]
  simp only [Stats.calculateModelWeights]
  rw [hvol, htrend, hseas]
  simp

theorem c6_counterexample_single_point_forecast_nan :
    Stats.generateSingleForecast [5] 1 = [JsNum.nan] := by
  norm_num [Stats.generateSingleForecast, arima5_eval, ets5_eval, theta5_eval,
    weights5_eval, listRange1, JsNum.jmul, JsNum.jadd, JsNum.jdiv, JsNum.jround,
    JsNum.jmax0]
